import Mathlib

/-!
# Verification of the graphi-t Vulkan HAL core

A shallow embedding of the command-translation, scheduling and barrier
engine of the graphi-t repository (`vk.cpp`, presented as
`src/unnamed/part_003`), together with proofs and refutations of the
frozen specification claims.

Conventions of the embedding:
* Machine integers (flag masks, sizes, indices) are `Nat`; the bit
  patterns of external Vulkan constants use their real values from the
  Vulkan headers.
* Vulkan handles (buffers, images, semaphores, command pools) are `Nat`
  identifiers; fresh handles are drawn from counters threaded through the
  translation state.
* A command buffer's recorded content is the list of `VkCmd` recording
  calls made on it, in order.
* C++ `panic`/failed `assert` is `Except.error` carrying the message;
  `log::warn` appends to a warning trace carried by the state.
-/

namespace GraphiT

/-! ## External Vulkan constants (values from the Vulkan headers) -/

def VK_BUFFER_USAGE_TRANSFER_SRC_BIT : Nat := 0x1
def VK_BUFFER_USAGE_TRANSFER_DST_BIT : Nat := 0x2
def VK_BUFFER_USAGE_UNIFORM_BUFFER_BIT : Nat := 0x10
def VK_BUFFER_USAGE_STORAGE_BUFFER_BIT : Nat := 0x20
def VK_BUFFER_USAGE_INDEX_BUFFER_BIT : Nat := 0x40
def VK_BUFFER_USAGE_VERTEX_BUFFER_BIT : Nat := 0x80

def VK_ACCESS_INDEX_READ_BIT : Nat := 0x2
def VK_ACCESS_VERTEX_ATTRIBUTE_READ_BIT : Nat := 0x4
def VK_ACCESS_UNIFORM_READ_BIT : Nat := 0x8
def VK_ACCESS_SHADER_READ_BIT : Nat := 0x20
def VK_ACCESS_SHADER_WRITE_BIT : Nat := 0x40
def VK_ACCESS_TRANSFER_READ_BIT : Nat := 0x800
def VK_ACCESS_TRANSFER_WRITE_BIT : Nat := 0x1000

def VK_PIPELINE_STAGE_TOP_OF_PIPE_BIT : Nat := 0x1
def VK_PIPELINE_STAGE_VERTEX_INPUT_BIT : Nat := 0x4
def VK_PIPELINE_STAGE_VERTEX_SHADER_BIT : Nat := 0x8
def VK_PIPELINE_STAGE_FRAGMENT_SHADER_BIT : Nat := 0x80
def VK_PIPELINE_STAGE_COMPUTE_SHADER_BIT : Nat := 0x800
def VK_PIPELINE_STAGE_TRANSFER_BIT : Nat := 0x1000
def VK_PIPELINE_STAGE_BOTTOM_OF_PIPE_BIT : Nat := 0x2000
def VK_PIPELINE_STAGE_ALL_GRAPHICS_BIT : Nat := 0x8000
def VK_PIPELINE_STAGE_ALL_COMMANDS_BIT : Nat := 0x10000

def VK_QUEUE_GRAPHICS_BIT : Nat := 0x1
def VK_QUEUE_COMPUTE_BIT : Nat := 0x2
def VK_QUEUE_TRANSFER_BIT : Nat := 0x4
def VK_QUEUE_SPARSE_BINDING_BIT : Nat := 0x8

def VK_QUEUE_FAMILY_IGNORED : Nat := 0xFFFFFFFF
def VK_WHOLE_SIZE : Nat := 0xFFFFFFFFFFFFFFFF

/-! ## HAL enumerations (declared in the HAL headers, used throughout vk.cpp)

`L_BUFFER_USAGE_*` are single bits of the HAL buffer-usage bit-set in
declaration order {staging, uniform, storage, vertex, index}; the claims
depend only on the bits being distinct. -/

def L_BUFFER_USAGE_STAGING_BIT : Nat := 0x1
def L_BUFFER_USAGE_UNIFORM_BIT : Nat := 0x2
def L_BUFFER_USAGE_STORAGE_BIT : Nat := 0x4
def L_BUFFER_USAGE_VERTEX_BIT : Nat := 0x8
def L_BUFFER_USAGE_INDEX_BIT : Nat := 0x10

/-- HAL memory/device access pattern.  In the headers this is a bit pair
(`READ_BIT`, `WRITE_BIT`); `L_MEMORY_ACCESS_READ_ONLY` coincides with
`READ_BIT` and `L_MEMORY_ACCESS_WRITE_ONLY` with `WRITE_BIT`, so the four
observable values form this enumeration. -/
inductive MemoryAccess
  | noAccess
  | readOnly
  | writeOnly
  | readWrite
deriving DecidableEq, Repr

/-- HAL submit classes (`SubmitType` in the headers). -/
inductive SubmitType
  | any
  | graphics
  | compute
deriving DecidableEq, Repr

/-! ## `create_buf`: underlying buffer usage flags (vk.cpp lines 524-554)

The five branches run in this order; the staging and uniform branches
OR into `bci.usage` (`|=`) while the storage, vertex and index branches
plainly assign (`=`), exactly as in the source. -/

def create_buf_usage (usage : Nat) : Nat :=
  let u : Nat := 0
  let u := if usage &&& L_BUFFER_USAGE_STAGING_BIT ≠ 0 then
      u ||| (VK_BUFFER_USAGE_TRANSFER_SRC_BIT |||
        VK_BUFFER_USAGE_TRANSFER_DST_BIT)
    else u
  let u := if usage &&& L_BUFFER_USAGE_UNIFORM_BIT ≠ 0 then
      u ||| (VK_BUFFER_USAGE_UNIFORM_BUFFER_BIT |||
        VK_BUFFER_USAGE_TRANSFER_DST_BIT)
    else u
  let u := if usage &&& L_BUFFER_USAGE_STORAGE_BIT ≠ 0 then
      VK_BUFFER_USAGE_STORAGE_BUFFER_BIT |||
        VK_BUFFER_USAGE_TRANSFER_SRC_BIT |||
        VK_BUFFER_USAGE_TRANSFER_DST_BIT
    else u
  let u := if usage &&& L_BUFFER_USAGE_VERTEX_BIT ≠ 0 then
      VK_BUFFER_USAGE_VERTEX_BUFFER_BIT |||
        VK_BUFFER_USAGE_TRANSFER_DST_BIT
    else u
  let u := if usage &&& L_BUFFER_USAGE_INDEX_BIT ≠ 0 then
      VK_BUFFER_USAGE_INDEX_BUFFER_BIT |||
        VK_BUFFER_USAGE_TRANSFER_DST_BIT
    else u
  u

/-! ## `create_buf`: memory-type choice (vk.cpp lines 559-574)

The loop walks the context's priority list for the buffer's host-access
mode and takes the first index whose bit is set in the queried
`memoryTypeBits` mask; if none is, it panics. -/

def create_buf_choose_mem_ty (prio : List Nat) (memTypeBits : Nat) :
    Except String Nat :=
  match prio.find? (fun i => Nat.testBit memTypeBits i) with
  | some i => Except.ok i
  | Option.none => Except.error "host access pattern cannot be satisfied"

/-! ## `create_ctxt`: queue-family selection (vk.cpp lines 314-348, 378-405)

Queue families are bucketed in a `std::map` keyed by the popcount of
their capability bits; the search walks the map in reverse (highest
popcount first) and inside a bucket in discovery order, taking the first
family whose flags contain all required bits. -/

structure QueueFamilyTrait where
  qfam_idx : Nat
  queue_flags : Nat
deriving DecidableEq, Repr

/-- `liong::util::count_set_bits` on a 32-bit flag word (the helper lives
in a utility header outside the provided sources; any correct popcount
of a 32-bit value is observationally identical). -/
def count_set_bits (n : Nat) : Nat :=
  (List.range 32).countP (fun i => Nat.testBit n i)

/-- Search buckets from popcount `k-1` downwards; scanning the discovery
list filtered to one popcount reproduces the bucket's insertion order. -/
def _search_qfam_buckets (qfams : List QueueFamilyTrait) (req : Nat) :
    Nat → Option Nat
  | 0 => Option.none
  | k + 1 =>
    match qfams.find? (fun t =>
        decide (count_set_bits t.queue_flags = k) &&
        decide (req &&& t.queue_flags = req)) with
    | some t => some t.qfam_idx
    | Option.none => _search_qfam_buckets qfams req k

/-- The queue family `create_ctxt` allocates for one submit-class
requirement (`VK_QUEUE_FAMILY_IGNORED`, i.e. `Option.none`, when no
family satisfies it).  Capability words are 32-bit, so every popcount is
at most 32 and starting the search at bucket 32 covers all buckets. -/
def create_ctxt_select_qfam (qfams : List QueueFamilyTrait) (req : Nat) :
    Option Nat :=
  _search_qfam_buckets qfams req 33

/-! ## `_make_img_fmt` (vk.cpp lines 618-679)

The C++ is a nest of `switch` statements without `break` between the
outer cases; the fall-through is translated explicitly with `Option`
chaining: a block's `none` result falls into the following block when
the block was entered. -/

structure PixelFormat where
  /-- `get_ncomp()`: the component count carried by the descriptor. -/
  ncomp : Nat
  int_exp2 : Nat
  is_signed : Bool
  is_single : Bool
  is_half : Bool
deriving DecidableEq, Repr

inductive VkFormat
  | R32_SFLOAT | R32G32_SFLOAT | R32G32B32_SFLOAT | R32G32B32A32_SFLOAT
  | R8_SNORM | R8G8_SNORM | R8G8B8_SNORM | R8G8B8A8_SNORM
  | R16_SINT | R16G16_SINT | R16G16B16_SINT | R16G16B16A16_SINT
  | R32_SINT | R32G32_SINT | R32G32B32_SINT | R32G32B32A32_SINT
  | R8_UNORM | R8G8_UNORM | R8G8B8_UNORM | R8G8B8A8_UNORM
  | R16_UINT | R16G16_UINT | R16G16B16_UINT | R16G16B16A16_UINT
  | R32_UINT | R32G32_UINT | R32G32B32_UINT | R32G32B32A32_UINT
deriving DecidableEq, Repr

/-- The signed branch: `switch (fmt.int_exp2)` whose `case 1` switches on
`get_ncomp()` but whose `case 2` and `case 3` switch on `fmt.int_exp2`
again, and which falls through between cases, verbatim from the source. -/
def _make_img_fmt_signed (fmt : PixelFormat) : Option VkFormat :=
  ((if fmt.int_exp2 = 1 then
      match fmt.ncomp with
      | 1 => some VkFormat.R8_SNORM
      | 2 => some VkFormat.R8G8_SNORM
      | 3 => some VkFormat.R8G8B8_SNORM
      | 4 => some VkFormat.R8G8B8A8_SNORM
      | _ => Option.none
    else Option.none).orElse (fun _ =>
   if fmt.int_exp2 = 1 ∨ fmt.int_exp2 = 2 then
      match fmt.int_exp2 with
      | 1 => some VkFormat.R16_SINT
      | 2 => some VkFormat.R16G16_SINT
      | 3 => some VkFormat.R16G16B16_SINT
      | 4 => some VkFormat.R16G16B16A16_SINT
      | _ => Option.none
    else Option.none)).orElse (fun _ =>
   if fmt.int_exp2 = 1 ∨ fmt.int_exp2 = 2 ∨ fmt.int_exp2 = 3 then
      match fmt.int_exp2 with
      | 1 => some VkFormat.R32_SINT
      | 2 => some VkFormat.R32G32_SINT
      | 3 => some VkFormat.R32G32B32_SINT
      | 4 => some VkFormat.R32G32B32A32_SINT
      | _ => Option.none
    else Option.none)

/-- The unsigned branch, identical in structure to the signed one. -/
def _make_img_fmt_unsigned (fmt : PixelFormat) : Option VkFormat :=
  ((if fmt.int_exp2 = 1 then
      match fmt.ncomp with
      | 1 => some VkFormat.R8_UNORM
      | 2 => some VkFormat.R8G8_UNORM
      | 3 => some VkFormat.R8G8B8_UNORM
      | 4 => some VkFormat.R8G8B8A8_UNORM
      | _ => Option.none
    else Option.none).orElse (fun _ =>
   if fmt.int_exp2 = 1 ∨ fmt.int_exp2 = 2 then
      match fmt.int_exp2 with
      | 1 => some VkFormat.R16_UINT
      | 2 => some VkFormat.R16G16_UINT
      | 3 => some VkFormat.R16G16B16_UINT
      | 4 => some VkFormat.R16G16B16A16_UINT
      | _ => Option.none
    else Option.none)).orElse (fun _ =>
   if fmt.int_exp2 = 1 ∨ fmt.int_exp2 = 2 ∨ fmt.int_exp2 = 3 then
      match fmt.int_exp2 with
      | 1 => some VkFormat.R32_UINT
      | 2 => some VkFormat.R32G32_UINT
      | 3 => some VkFormat.R32G32B32_UINT
      | 4 => some VkFormat.R32G32B32A32_UINT
      | _ => Option.none
    else Option.none)

def _make_img_fmt (fmt : PixelFormat) : Except String VkFormat :=
  if fmt.is_half then
    Except.error "half-precision texture not supported"
  else if fmt.is_single then
    match fmt.ncomp with
    | 1 => Except.ok VkFormat.R32_SFLOAT
    | 2 => Except.ok VkFormat.R32G32_SFLOAT
    | 3 => Except.ok VkFormat.R32G32B32_SFLOAT
    | 4 => Except.ok VkFormat.R32G32B32A32_SFLOAT
    | _ => Except.error "unrecognized pixel format"
  else if fmt.is_signed then
    match _make_img_fmt_signed fmt with
    | some f => Except.ok f
    | Option.none => Except.error "unrecognized pixel format"
  else
    match _make_img_fmt_unsigned fmt with
    | some f => Except.ok f
    | Option.none => Except.error "unrecognized pixel format"

/-- Number of components of a concrete format (a fact about the format
names, used to state claims about `_make_img_fmt`). -/
def vkFormatNcomp : VkFormat → Nat
  | VkFormat.R32_SFLOAT | VkFormat.R8_SNORM | VkFormat.R16_SINT
  | VkFormat.R32_SINT | VkFormat.R8_UNORM | VkFormat.R16_UINT
  | VkFormat.R32_UINT => 1
  | VkFormat.R32G32_SFLOAT | VkFormat.R8G8_SNORM | VkFormat.R16G16_SINT
  | VkFormat.R32G32_SINT | VkFormat.R8G8_UNORM | VkFormat.R16G16_UINT
  | VkFormat.R32G32_UINT => 2
  | VkFormat.R32G32B32_SFLOAT | VkFormat.R8G8B8_SNORM
  | VkFormat.R16G16B16_SINT | VkFormat.R32G32B32_SINT
  | VkFormat.R8G8B8_UNORM | VkFormat.R16G16B16_UINT
  | VkFormat.R32G32B32_UINT => 3
  | VkFormat.R32G32B32A32_SFLOAT | VkFormat.R8G8B8A8_SNORM
  | VkFormat.R16G16B16A16_SINT | VkFormat.R32G32B32A32_SINT
  | VkFormat.R8G8B8A8_UNORM | VkFormat.R16G16B16A16_UINT
  | VkFormat.R32G32B32A32_UINT => 4

/-- Per-component width in bits of a concrete format. -/
def vkFormatCompBits : VkFormat → Nat
  | VkFormat.R8_SNORM | VkFormat.R8G8_SNORM | VkFormat.R8G8B8_SNORM
  | VkFormat.R8G8B8A8_SNORM | VkFormat.R8_UNORM | VkFormat.R8G8_UNORM
  | VkFormat.R8G8B8_UNORM | VkFormat.R8G8B8A8_UNORM => 8
  | VkFormat.R16_SINT | VkFormat.R16G16_SINT | VkFormat.R16G16B16_SINT
  | VkFormat.R16G16B16A16_SINT | VkFormat.R16_UINT | VkFormat.R16G16_UINT
  | VkFormat.R16G16B16_UINT | VkFormat.R16G16B16A16_UINT => 16
  | _ => 32

/-! ## `_make_buf_barrier_params` (vk.cpp lines 1729-1795)

In the source the function's signature is

  `void _make_buf_barrier_params(BufferUsage usage, MemoryAccess dev_access,
    VkAccessFlags& access, VkPipelineStageFlags stage)`

`access` is a reference parameter but `stage` is passed **by value**, so
the `stage = ...;` assignments inside never reach the caller.  The
embedding returns the function's final view of both locals
`(access, stage)`; the call site below drops the second component, which
is exactly what the by-value parameter does. -/

def _make_buf_barrier_params (usage : Nat) (dev_access : MemoryAccess)
    (access0 stage0 : Nat) : Except String (Nat × Nat) :=
  if dev_access = MemoryAccess.noAccess then
    Except.ok (access0, stage0)
  else if usage = 0 then
    Except.error "buffer barrier must be specified with a usage"
  else if usage = L_BUFFER_USAGE_STAGING_BIT then
    if dev_access = MemoryAccess.readOnly then
      Except.ok (VK_ACCESS_TRANSFER_READ_BIT, VK_PIPELINE_STAGE_TRANSFER_BIT)
    else if dev_access = MemoryAccess.writeOnly then
      Except.ok (VK_ACCESS_TRANSFER_WRITE_BIT, VK_PIPELINE_STAGE_TRANSFER_BIT)
    else
      Except.error "buffer used for staging can't be both read and written"
  else if usage = L_BUFFER_USAGE_VERTEX_BIT then
    if dev_access = MemoryAccess.readOnly then
      Except.ok (VK_ACCESS_VERTEX_ATTRIBUTE_READ_BIT,
        VK_PIPELINE_STAGE_VERTEX_INPUT_BIT)
    else
      Except.error "buffer used for vertex input cannot be written"
  else if usage = L_BUFFER_USAGE_INDEX_BIT then
    if dev_access = MemoryAccess.readOnly then
      Except.ok (VK_ACCESS_INDEX_READ_BIT, VK_PIPELINE_STAGE_VERTEX_INPUT_BIT)
    else
      Except.error "buffer used for index input cannot be written"
  else if usage = L_BUFFER_USAGE_UNIFORM_BIT then
    if dev_access = MemoryAccess.readOnly then
      Except.ok (VK_ACCESS_UNIFORM_READ_BIT,
        VK_PIPELINE_STAGE_VERTEX_SHADER_BIT |||
        VK_PIPELINE_STAGE_FRAGMENT_SHADER_BIT |||
        VK_PIPELINE_STAGE_COMPUTE_SHADER_BIT)
    else
      Except.error "buffer used for uniform cannot be written"
  else if usage = L_BUFFER_USAGE_STORAGE_BIT then
    if dev_access = MemoryAccess.readOnly then
      Except.ok (VK_ACCESS_SHADER_READ_BIT,
        VK_PIPELINE_STAGE_ALL_GRAPHICS_BIT |||
        VK_PIPELINE_STAGE_COMPUTE_SHADER_BIT)
    else if dev_access = MemoryAccess.writeOnly then
      Except.ok (VK_ACCESS_SHADER_WRITE_BIT,
        VK_PIPELINE_STAGE_ALL_GRAPHICS_BIT |||
        VK_PIPELINE_STAGE_COMPUTE_SHADER_BIT)
    else
      Except.ok (VK_ACCESS_SHADER_READ_BIT ||| VK_ACCESS_SHADER_WRITE_BIT,
        VK_PIPELINE_STAGE_ALL_GRAPHICS_BIT |||
        VK_PIPELINE_STAGE_COMPUTE_SHADER_BIT)
  else
    Except.error "cannot make buffer barrier with a set of usage"

/-! ## Commands, recorded device commands and the translation state -/

/-- Non-owning `(buffer, offset, size)` triple. -/
structure BufferView where
  buf : Nat
  offset : Nat
  size : Nat
deriving DecidableEq, Repr

/-- Non-owning `(image, (x, y), (w, h))` view. -/
structure ImageView where
  img : Nat
  x_offset : Nat
  y_offset : Nat
  width : Nat
  height : Nat
deriving DecidableEq, Repr

structure VkBufferCopy where
  srcOffset : Nat
  dstOffset : Nat
  size : Nat
deriving DecidableEq, Repr

structure VkBufferMemoryBarrier where
  srcAccessMask : Nat
  dstAccessMask : Nat
  srcQueueFamilyIndex : Nat
  dstQueueFamilyIndex : Nat
  buffer : Nat
  offset : Nat
  size : Nat
deriving DecidableEq, Repr

structure VkImageMemoryBarrier where
  srcAccessMask : Nat
  dstAccessMask : Nat
  oldLayout : Nat
  newLayout : Nat
  srcQueueFamilyIndex : Nat
  dstQueueFamilyIndex : Nat
  image : Nat
deriving DecidableEq, Repr

/-- One recording call made on a command buffer (`vkCmd*`). -/
inductive VkCmd
  | copyBuffer (src dst : Nat) (bc : VkBufferCopy)
  | copyBufferToImage (src dst : Nat) (bufferOffset : Nat)
      (xy : Nat × Nat) (wh : Nat × Nat)
  | copyImageToBuffer (src dst : Nat) (bufferOffset : Nat)
      (xy : Nat × Nat) (wh : Nat × Nat)
  | copyImage (src dst : Nat) (srcXY dstXY wh : Nat × Nat)
  | bindPipelineCompute (pipe : Nat)
  | bindPipelineGraphics (pipe : Nat)
  | bindDescriptorSets (layout : Nat)
  | dispatch (x y z : Nat)
  | bindVertexBuffers (buf offset : Nat)
  | bindIndexBuffer (buf offset : Nat)
  | draw (nvert ninst : Nat)
  | drawIndexed (nidx ninst : Nat)
  | resetQueryPool (pool : Nat)
  | writeTimestamp (stage pool : Nat)
  | pipelineBarrierBuffer (srcStage dstStage : Nat)
      (bmb : VkBufferMemoryBarrier)
  | pipelineBarrierImage (srcStage dstStage : Nat)
      (imb : VkImageMemoryBarrier)
  | beginRenderPass (pass : Nat) (draw_inline : Bool)
  | endRenderPass
  | executeCommands (secondaryCmdbuf : Nat)
deriving DecidableEq, Repr

/-- The abstract `Command` variant (§6 of the spec; the tagged union of
the HAL headers).  Payloads carry exactly the data the translator reads.
An `inlineTransact` carries the sub-transaction's submit-detail list as
`(submit class, secondary command buffer handle)` pairs; `unknown` stands
for a tag outside the fourteen recognized ones. -/
inductive Command
  | setSubmitTy (submit_ty : SubmitType)
  | inlineTransact (sub_details : List (SubmitType × Nat))
  | copyBuf2Img (src : BufferView) (dst : ImageView)
  | copyImg2Buf (src : ImageView) (dst : BufferView)
  | copyBuf (src : BufferView) (dst : BufferView)
  | copyImg (src : ImageView) (dst : ImageView)
  | dispatch (pipe : Nat) (has_desc_set : Bool) (x y z : Nat)
  | draw (pipe : Nat) (has_desc_set : Bool) (verts : BufferView)
      (nvert ninst : Nat)
  | drawIndexed (pipe : Nat) (has_desc_set : Bool)
      (verts idxs : BufferView) (nidx ninst : Nat)
  | writeTimestamp (query_pool : Nat)
  | bufBarrier (buf : Nat) (src_usage dst_usage : Nat)
      (src_dev_access dst_dev_access : MemoryAccess)
  | imgBarrier (img : Nat) (src_usage dst_usage : Nat)
      (src_dev_access dst_dev_access : MemoryAccess)
  | beginPass (pass : Nat) (draw_inline : Bool)
  | endPass
  | unknown (cmd_ty : Nat)
deriving DecidableEq, Repr

/-- `VkCommandBufferLevel`. -/
inductive Level
  | primary
  | secondary
deriving DecidableEq, Repr

/-- `TransactionSubmitDetail`: one submit detail of a transaction.  The
`cmdbuf` handle is represented by the list of commands recorded into it;
`wait_sema` is `Option.none` where the source stores `VK_NULL_HANDLE`. -/
structure TransactionSubmitDetail where
  submit_ty : SubmitType
  cmd_pool : Nat
  cmdbuf : List VkCmd
  wait_sema : Option Nat
  signal_sema : Nat
deriving DecidableEq, Repr

/-- `TransactionLike` (vk.cpp line 1404).  The context pointer is not
needed by the embedded logic (queue lookups only pick device handles). -/
structure TransactionLike where
  level : Level
  submit_details : List TransactionSubmitDetail
deriving DecidableEq, Repr

/-- The full translation state: the `TransactionLike` plus the handle
counters standing for `vkCreateSemaphore` / `vkCreateCommandPool`
allocation, and the trace of `log::warn` messages. -/
structure TransState where
  transact : TransactionLike
  next_sema : Nat
  next_pool : Nat
  warns : List String
deriving DecidableEq, Repr

def initTransState (level : Level) : TransState :=
  { transact := { level := level, submit_details := [] },
    next_sema := 0, next_pool := 0, warns := [] }

/-- Append recorded device commands to the last (current) submit
detail's command buffer. -/
def appendToLast (details : List TransactionSubmitDetail)
    (cs : List VkCmd) : List TransactionSubmitDetail :=
  match details with
  | [] => []
  | [d] => [{ d with cmdbuf := d.cmdbuf ++ cs }]
  | d :: rest => d :: appendToLast rest cs

def TransState.appendCmds (st : TransState) (cs : List VkCmd) : TransState :=
  { st with transact :=
      { st.transact with
        submit_details := appendToLast st.transact.submit_details cs } }

def TransState.addWarn (st : TransState) (msg : String) : TransState :=
  { st with warns := st.warns ++ [msg] }

/-- `_push_transact_submit_detail` (vk.cpp lines 1425-1443): create a
command pool and buffer, wait on the previous detail's signal semaphore
(none for the first detail), and create a fresh signal semaphore. -/
def _push_transact_submit_detail (st : TransState) (submit_ty : SubmitType) :
    TransState :=
  let wait : Option Nat :=
    match st.transact.submit_details.getLast? with
    | Option.none => Option.none
    | some last => some last.signal_sema
  let detail : TransactionSubmitDetail :=
    { submit_ty := submit_ty
      cmd_pool := st.next_pool
      cmdbuf := []
      wait_sema := wait
      signal_sema := st.next_sema }
  { st with
    transact := { st.transact with
      submit_details := st.transact.submit_details ++ [detail] }
    next_sema := st.next_sema + 1
    next_pool := st.next_pool + 1 }

/-- `_get_cmdbuf` (vk.cpp lines 1478-1512).  An `any` request inherits
the current detail's class (panicking when there is none); a request
matching the current detail's class reuses its command buffer; otherwise
the current buffer is ended (and submitted when primary — a device-side
effect outside the state) and a fresh detail is pushed. -/
def _get_cmdbuf (st : TransState) (submit_ty : SubmitType) :
    Except String TransState :=
  match submit_ty, st.transact.submit_details.getLast? with
  | SubmitType.any, Option.none =>
    Except.error "cannot infer submit type for submit-type-independent command"
  | SubmitType.any, some _ =>
    -- resolved to the current detail's class, hence always reused
    Except.ok st
  | ty, Option.none =>
    Except.ok (_push_transact_submit_detail st ty)
  | ty, some last =>
    if ty = last.submit_ty then Except.ok st
    else Except.ok (_push_transact_submit_detail st ty)

/-! ## Image barrier parameter tables (vk.cpp lines 1797-1971)

Unlike the buffer variant, both image variants take `access`, `stage`
and `layout` by reference, so the embedding's returned triple is what the
caller sees.  Image usage bits and layouts are external enumerations. -/

def L_IMAGE_USAGE_NONE : Nat := 0
def L_IMAGE_USAGE_SAMPLED_BIT : Nat := 0x1
def L_IMAGE_USAGE_STORAGE_BIT : Nat := 0x2
def L_IMAGE_USAGE_ATTACHMENT_BIT : Nat := 0x4
def L_IMAGE_USAGE_PRESENT_BIT : Nat := 0x8
def L_IMAGE_USAGE_STAGING_BIT : Nat := 0x10

def VK_IMAGE_LAYOUT_UNDEFINED : Nat := 0
def VK_IMAGE_LAYOUT_GENERAL : Nat := 1
def VK_IMAGE_LAYOUT_COLOR_ATTACHMENT_OPTIMAL : Nat := 2
def VK_IMAGE_LAYOUT_SHADER_READ_ONLY_OPTIMAL : Nat := 5
def VK_IMAGE_LAYOUT_TRANSFER_SRC_OPTIMAL : Nat := 6
def VK_IMAGE_LAYOUT_TRANSFER_DST_OPTIMAL : Nat := 7
def VK_IMAGE_LAYOUT_PRESENT_SRC_KHR : Nat := 1000001002

def VK_ACCESS_INPUT_ATTACHMENT_READ_BIT : Nat := 0x10
def VK_ACCESS_COLOR_ATTACHMENT_READ_BIT : Nat := 0x80
def VK_ACCESS_COLOR_ATTACHMENT_WRITE_BIT : Nat := 0x100
def VK_PIPELINE_STAGE_COLOR_ATTACHMENT_OUTPUT_BIT : Nat := 0x400

/-- `_make_img_barrier_src_params` (vk.cpp lines 1797-1885). -/
def _make_img_barrier_src_params (usage : Nat) (dev_access : MemoryAccess)
    (access0 stage0 layout0 : Nat) : Except String (Nat × Nat × Nat) :=
  if dev_access = MemoryAccess.noAccess then
    Except.ok (access0, stage0, layout0)
  else if usage = L_IMAGE_USAGE_NONE then
    Except.ok (0, VK_PIPELINE_STAGE_BOTTOM_OF_PIPE_BIT,
      VK_IMAGE_LAYOUT_UNDEFINED)
  else if usage = L_IMAGE_USAGE_STAGING_BIT then
    if dev_access = MemoryAccess.readOnly then
      Except.ok (VK_ACCESS_TRANSFER_READ_BIT, VK_PIPELINE_STAGE_TRANSFER_BIT,
        VK_IMAGE_LAYOUT_TRANSFER_SRC_OPTIMAL)
    else if dev_access = MemoryAccess.writeOnly then
      Except.ok (VK_ACCESS_TRANSFER_WRITE_BIT, VK_PIPELINE_STAGE_TRANSFER_BIT,
        VK_IMAGE_LAYOUT_TRANSFER_DST_OPTIMAL)
    else
      Except.error "image used for staging can't be both read and written"
  else if usage = L_IMAGE_USAGE_ATTACHMENT_BIT then
    if dev_access = MemoryAccess.readOnly then
      Except.ok (VK_ACCESS_INPUT_ATTACHMENT_READ_BIT,
        VK_PIPELINE_STAGE_FRAGMENT_SHADER_BIT,
        VK_IMAGE_LAYOUT_COLOR_ATTACHMENT_OPTIMAL)
    else
      Except.ok (VK_ACCESS_COLOR_ATTACHMENT_WRITE_BIT,
        VK_PIPELINE_STAGE_COLOR_ATTACHMENT_OUTPUT_BIT,
        VK_IMAGE_LAYOUT_COLOR_ATTACHMENT_OPTIMAL)
  else if usage = L_IMAGE_USAGE_SAMPLED_BIT then
    if dev_access = MemoryAccess.readOnly then
      Except.ok (VK_ACCESS_SHADER_READ_BIT,
        VK_PIPELINE_STAGE_FRAGMENT_SHADER_BIT |||
          VK_PIPELINE_STAGE_COMPUTE_SHADER_BIT,
        VK_IMAGE_LAYOUT_SHADER_READ_ONLY_OPTIMAL)
    else
      Except.error "image used for sampling cannot be written"
  else if usage = L_IMAGE_USAGE_STORAGE_BIT then
    if dev_access = MemoryAccess.readOnly then
      Except.ok (VK_ACCESS_SHADER_READ_BIT,
        VK_PIPELINE_STAGE_FRAGMENT_SHADER_BIT |||
          VK_PIPELINE_STAGE_COMPUTE_SHADER_BIT,
        VK_IMAGE_LAYOUT_GENERAL)
    else if dev_access = MemoryAccess.writeOnly then
      Except.ok (VK_ACCESS_SHADER_WRITE_BIT,
        VK_PIPELINE_STAGE_FRAGMENT_SHADER_BIT |||
          VK_PIPELINE_STAGE_COMPUTE_SHADER_BIT,
        VK_IMAGE_LAYOUT_GENERAL)
    else
      Except.ok (VK_ACCESS_SHADER_READ_BIT ||| VK_ACCESS_SHADER_WRITE_BIT,
        VK_PIPELINE_STAGE_FRAGMENT_SHADER_BIT |||
          VK_PIPELINE_STAGE_COMPUTE_SHADER_BIT,
        VK_IMAGE_LAYOUT_GENERAL)
  else if usage = L_IMAGE_USAGE_PRESENT_BIT then
    if dev_access = MemoryAccess.readOnly then
      Except.ok (0, VK_PIPELINE_STAGE_BOTTOM_OF_PIPE_BIT,
        VK_IMAGE_LAYOUT_PRESENT_SRC_KHR)
    else
      Except.error "image used for present cannot be written"
  else
    Except.error "cannot make image barrier with a set of usage"

/-- `_make_img_barrier_dst_params` (vk.cpp lines 1886-1971).  In the
source the `usage == L_IMAGE_USAGE_NONE` branch is followed by `if`
without `else` (line 1899), so after its assignments control still runs
the staging/attachment/... chain, whose final `else` panics; for a
`none` usage with a non-`none` access the function therefore panics and
the assignments are dead. -/
def _make_img_barrier_dst_params (usage : Nat) (dev_access : MemoryAccess)
    (access0 stage0 layout0 : Nat) : Except String (Nat × Nat × Nat) :=
  if dev_access = MemoryAccess.noAccess then
    Except.ok (access0, stage0, layout0)
  else if usage = L_IMAGE_USAGE_STAGING_BIT then
    if dev_access = MemoryAccess.readOnly then
      Except.ok (VK_ACCESS_TRANSFER_READ_BIT, VK_PIPELINE_STAGE_TRANSFER_BIT,
        VK_IMAGE_LAYOUT_TRANSFER_SRC_OPTIMAL)
    else if dev_access = MemoryAccess.writeOnly then
      Except.ok (VK_ACCESS_TRANSFER_WRITE_BIT, VK_PIPELINE_STAGE_TRANSFER_BIT,
        VK_IMAGE_LAYOUT_TRANSFER_DST_OPTIMAL)
    else
      Except.error "image used for staging can't be both read and written"
  else if usage = L_IMAGE_USAGE_ATTACHMENT_BIT then
    if dev_access = MemoryAccess.readOnly then
      Except.ok (VK_ACCESS_INPUT_ATTACHMENT_READ_BIT,
        VK_PIPELINE_STAGE_FRAGMENT_SHADER_BIT,
        VK_IMAGE_LAYOUT_COLOR_ATTACHMENT_OPTIMAL)
    else
      Except.ok (VK_ACCESS_COLOR_ATTACHMENT_READ_BIT,
        VK_PIPELINE_STAGE_COLOR_ATTACHMENT_OUTPUT_BIT,
        VK_IMAGE_LAYOUT_COLOR_ATTACHMENT_OPTIMAL)
  else if usage = L_IMAGE_USAGE_SAMPLED_BIT then
    if dev_access = MemoryAccess.readOnly then
      Except.ok (VK_ACCESS_SHADER_READ_BIT,
        VK_PIPELINE_STAGE_FRAGMENT_SHADER_BIT |||
          VK_PIPELINE_STAGE_COMPUTE_SHADER_BIT,
        VK_IMAGE_LAYOUT_SHADER_READ_ONLY_OPTIMAL)
    else
      Except.error "image used for sampling cannot be written"
  else if usage = L_IMAGE_USAGE_STORAGE_BIT then
    if dev_access = MemoryAccess.readOnly then
      Except.ok (VK_ACCESS_SHADER_READ_BIT,
        VK_PIPELINE_STAGE_FRAGMENT_SHADER_BIT |||
          VK_PIPELINE_STAGE_COMPUTE_SHADER_BIT,
        VK_IMAGE_LAYOUT_GENERAL)
    else if dev_access = MemoryAccess.writeOnly then
      Except.ok (VK_ACCESS_SHADER_WRITE_BIT,
        VK_PIPELINE_STAGE_FRAGMENT_SHADER_BIT |||
          VK_PIPELINE_STAGE_COMPUTE_SHADER_BIT,
        VK_IMAGE_LAYOUT_GENERAL)
    else
      Except.ok (VK_ACCESS_SHADER_READ_BIT ||| VK_ACCESS_SHADER_WRITE_BIT,
        VK_PIPELINE_STAGE_FRAGMENT_SHADER_BIT |||
          VK_PIPELINE_STAGE_COMPUTE_SHADER_BIT,
        VK_IMAGE_LAYOUT_GENERAL)
  else if usage = L_IMAGE_USAGE_PRESENT_BIT then
    if dev_access = MemoryAccess.readOnly then
      Except.ok (0, VK_PIPELINE_STAGE_BOTTOM_OF_PIPE_BIT,
        VK_IMAGE_LAYOUT_PRESENT_SRC_KHR)
    else
      Except.error "image used for present cannot be written"
  else
    Except.error "cannot make image barrier with a set of usage"

/-! ## Per-command recording (vk.cpp lines 1514-2145) -/

/-- `_record_cmd_set_submit_ty`: forces a command buffer of the wanted
class into existence; nothing is recorded. -/
def _record_cmd_set_submit_ty (st : TransState) (submit_ty : SubmitType) :
    Except String TransState :=
  _get_cmdbuf st submit_ty

/-- `_record_cmd_inline_transact`: only legal in a primary recording;
for each sub-detail, obtain a command buffer of the same class and record
an `vkCmdExecuteCommands` of the secondary buffer into it. -/
def _record_cmd_inline_transact (st : TransState)
    (sub_details : List (SubmitType × Nat)) : Except String TransState :=
  if st.transact.level = Level.primary then
    sub_details.foldlM (fun st' sub =>
      (_get_cmdbuf st' sub.1).map
        (·.appendCmds [VkCmd.executeCommands sub.2])) st
  else
    Except.error "nested inline transaction is not allowed"

def _record_cmd_copy_buf2img (st : TransState) (src : BufferView)
    (dst : ImageView) : Except String TransState :=
  (_get_cmdbuf st SubmitType.any).map
    (·.appendCmds [VkCmd.copyBufferToImage src.buf dst.img src.offset
      (dst.x_offset, dst.y_offset) (dst.width, dst.height)])

def _record_cmd_copy_img2buf (st : TransState) (src : ImageView)
    (dst : BufferView) : Except String TransState :=
  (_get_cmdbuf st SubmitType.any).map
    (·.appendCmds [VkCmd.copyImageToBuffer src.img dst.buf dst.offset
      (src.x_offset, src.y_offset) (src.width, src.height)])

/-- `_record_cmd_copy_buf` (vk.cpp lines 1598-1615): assert equal view
sizes, then record the copy; there is no special case for size 0. -/
def _record_cmd_copy_buf (st : TransState) (src dst : BufferView) :
    Except String TransState :=
  if src.size = dst.size then
    (_get_cmdbuf st SubmitType.any).map
      (·.appendCmds [VkCmd.copyBuffer src.buf dst.buf
        { srcOffset := src.offset, dstOffset := dst.offset,
          size := dst.size }])
  else
    Except.error "buffer copy size mismatched"

def _record_cmd_copy_img (st : TransState) (src dst : ImageView) :
    Except String TransState :=
  if src.width = dst.width ∧ src.height = dst.height then
    (_get_cmdbuf st SubmitType.any).map
      (·.appendCmds [VkCmd.copyImage src.img dst.img
        (src.x_offset, src.y_offset) (dst.x_offset, dst.y_offset)
        (dst.width, dst.height)])
  else
    Except.error "image copy size mismatched"

def _record_cmd_dispatch (st : TransState) (pipe : Nat)
    (has_desc_set : Bool) (x y z : Nat) : Except String TransState :=
  (_get_cmdbuf st SubmitType.compute).map
    (·.appendCmds ([VkCmd.bindPipelineCompute pipe] ++
      (if has_desc_set then [VkCmd.bindDescriptorSets pipe] else []) ++
      [VkCmd.dispatch x y z]))

def _record_cmd_draw (st : TransState) (pipe : Nat) (has_desc_set : Bool)
    (verts : BufferView) (nvert ninst : Nat) : Except String TransState :=
  (_get_cmdbuf st SubmitType.graphics).map
    (·.appendCmds ([VkCmd.bindPipelineGraphics pipe] ++
      (if has_desc_set then [VkCmd.bindDescriptorSets pipe] else []) ++
      [VkCmd.bindVertexBuffers verts.buf verts.offset,
       VkCmd.draw nvert ninst]))

def _record_cmd_draw_indexed (st : TransState) (pipe : Nat)
    (has_desc_set : Bool) (verts idxs : BufferView) (nidx ninst : Nat) :
    Except String TransState :=
  (_get_cmdbuf st SubmitType.graphics).map
    (·.appendCmds ([VkCmd.bindPipelineGraphics pipe] ++
      (if has_desc_set then [VkCmd.bindDescriptorSets pipe] else []) ++
      [VkCmd.bindVertexBuffers verts.buf verts.offset,
       VkCmd.bindIndexBuffer idxs.buf idxs.offset,
       VkCmd.drawIndexed nidx ninst]))

def _record_cmd_write_timestamp (st : TransState) (query_pool : Nat) :
    Except String TransState :=
  (_get_cmdbuf st SubmitType.any).map
    (·.appendCmds [VkCmd.resetQueryPool query_pool,
      VkCmd.writeTimestamp VK_PIPELINE_STAGE_ALL_COMMANDS_BIT query_pool])

/-- `_record_cmd_buf_barrier` (vk.cpp lines 1972-2013).  The caller
initialises `src_stage`/`dst_stage` to bottom/top-of-pipe and passes them
to `_make_buf_barrier_params` **by value**, so the recorded
`vkCmdPipelineBarrier` always receives those defaults while the access
masks (passed by reference) do come from the table. -/
def _record_cmd_buf_barrier (st : TransState) (buf : Nat)
    (src_usage dst_usage : Nat)
    (src_dev_access dst_dev_access : MemoryAccess) :
    Except String TransState :=
  match _get_cmdbuf st SubmitType.any with
  | Except.error e => Except.error e
  | Except.ok st1 =>
    let src_stage := VK_PIPELINE_STAGE_BOTTOM_OF_PIPE_BIT
    let dst_stage := VK_PIPELINE_STAGE_TOP_OF_PIPE_BIT
    match _make_buf_barrier_params src_usage src_dev_access 0 src_stage with
    | Except.error e => Except.error e
    | Except.ok (src_access, _) =>
      match _make_buf_barrier_params dst_usage dst_dev_access 0 dst_stage with
      | Except.error e => Except.error e
      | Except.ok (dst_access, _) =>
        Except.ok (st1.appendCmds [VkCmd.pipelineBarrierBuffer
          src_stage dst_stage
          { srcAccessMask := src_access
            dstAccessMask := dst_access
            srcQueueFamilyIndex := VK_QUEUE_FAMILY_IGNORED
            dstQueueFamilyIndex := VK_QUEUE_FAMILY_IGNORED
            buffer := buf
            offset := 0
            size := VK_WHOLE_SIZE }])

/-- `_record_cmd_img_barrier` (vk.cpp lines 2014-2064); here the stages
and layouts are reference parameters and do reach the barrier. -/
def _record_cmd_img_barrier (st : TransState) (img : Nat)
    (src_usage dst_usage : Nat)
    (src_dev_access dst_dev_access : MemoryAccess) :
    Except String TransState :=
  match _get_cmdbuf st SubmitType.any with
  | Except.error e => Except.error e
  | Except.ok st1 =>
    match _make_img_barrier_src_params src_usage src_dev_access
        0 VK_PIPELINE_STAGE_BOTTOM_OF_PIPE_BIT VK_IMAGE_LAYOUT_UNDEFINED with
    | Except.error e => Except.error e
    | Except.ok (src_access, src_stage, src_layout) =>
      match _make_img_barrier_dst_params dst_usage dst_dev_access
          0 VK_PIPELINE_STAGE_TOP_OF_PIPE_BIT VK_IMAGE_LAYOUT_UNDEFINED with
      | Except.error e => Except.error e
      | Except.ok (dst_access, dst_stage, dst_layout) =>
        Except.ok (st1.appendCmds [VkCmd.pipelineBarrierImage
          src_stage dst_stage
          { srcAccessMask := src_access
            dstAccessMask := dst_access
            oldLayout := src_layout
            newLayout := dst_layout
            srcQueueFamilyIndex := VK_QUEUE_FAMILY_IGNORED
            dstQueueFamilyIndex := VK_QUEUE_FAMILY_IGNORED
            image := img }])

def _record_cmd_begin_pass (st : TransState) (pass : Nat)
    (draw_inline : Bool) : Except String TransState :=
  if st.transact.level = Level.primary then
    (_get_cmdbuf st SubmitType.graphics).map
      (·.appendCmds [VkCmd.beginRenderPass pass draw_inline])
  else
    Except.error "assertion failed"

def _record_cmd_end_pass (st : TransState) : Except String TransState :=
  if st.transact.level = Level.primary then
    (_get_cmdbuf st SubmitType.graphics).map
      (·.appendCmds [VkCmd.endRenderPass])
  else
    Except.error "assertion failed"

/-- `_record_cmd` (vk.cpp lines 2097-2145): exhaustive dispatch on the
command tag; an unknown tag logs a warning and records nothing. -/
def _record_cmd (st : TransState) (cmd : Command) :
    Except String TransState :=
  match cmd with
  | Command.setSubmitTy ty => _record_cmd_set_submit_ty st ty
  | Command.inlineTransact subs => _record_cmd_inline_transact st subs
  | Command.copyBuf2Img src dst => _record_cmd_copy_buf2img st src dst
  | Command.copyImg2Buf src dst => _record_cmd_copy_img2buf st src dst
  | Command.copyBuf src dst => _record_cmd_copy_buf st src dst
  | Command.copyImg src dst => _record_cmd_copy_img st src dst
  | Command.dispatch pipe hds x y z => _record_cmd_dispatch st pipe hds x y z
  | Command.draw pipe hds verts nvert ninst =>
    _record_cmd_draw st pipe hds verts nvert ninst
  | Command.drawIndexed pipe hds verts idxs nidx ninst =>
    _record_cmd_draw_indexed st pipe hds verts idxs nidx ninst
  | Command.writeTimestamp qp => _record_cmd_write_timestamp st qp
  | Command.bufBarrier buf su du sa da =>
    _record_cmd_buf_barrier st buf su du sa da
  | Command.imgBarrier img su du sa da =>
    _record_cmd_img_barrier st img su du sa da
  | Command.beginPass pass di => _record_cmd_begin_pass st pass di
  | Command.endPass => _record_cmd_end_pass st
  | Command.unknown cmd_ty =>
    Except.ok (st.addWarn ("ignored unknown command: " ++ toString cmd_ty))

/-- The translation loop shared by `submit_cmds` (primary, vk.cpp lines
2162-2188) and `create_transact` (secondary, lines 2224-2240): record
each command in order into a fresh `TransactionLike` of the given level.
The trailing `_end_cmdbuf`/submission are device-side effects that do not
change the submit-detail data. -/
def translate (level : Level) (cmds : List Command) :
    Except String TransState :=
  cmds.foldlM _record_cmd (initTransState level)

/-! ## Specification-side notions for the contiguity claim

These are defined from the spec's wording (required submit classes,
resolution of `any` against the current run, maximal contiguous runs),
not from the implementation; the contiguity theorem connects them to
`translate`. -/

/-- The submit classes a command requires, in the order the translator
requests command buffers for them: `dispatch` needs compute; the draw
and render-pass commands need graphics; `set-submit-type` forces its
payload class; an inline transaction needs the class of each of its
sub-details in turn; an unrecognized command requests nothing; every
other command is class-agnostic (`any`). -/
def reqClasses : Command → List SubmitType
  | Command.setSubmitTy ty => [ty]
  | Command.inlineTransact subs => subs.map Prod.fst
  | Command.dispatch _ _ _ _ _ => [SubmitType.compute]
  | Command.draw _ _ _ _ _ => [SubmitType.graphics]
  | Command.drawIndexed _ _ _ _ _ _ => [SubmitType.graphics]
  | Command.beginPass _ _ => [SubmitType.graphics]
  | Command.endPass => [SubmitType.graphics]
  | Command.unknown _ => []
  | _ => [SubmitType.any]

/-- Resolve a stream of requested classes: `any` inherits the class of
the current run (there must be one), a concrete class starts or
continues a run of that class.  `Option.none` means the stream is
rejected ("cannot infer submit type"). -/
def resolveClasses (cur : Option SubmitType) :
    List SubmitType → Option (List SubmitType)
  | [] => some []
  | c :: rest =>
    match c, cur with
    | SubmitType.any, Option.none => Option.none
    | SubmitType.any, some t =>
      (resolveClasses (some t) rest).map (t :: ·)
    | t, _ => (resolveClasses (some t) rest).map (t :: ·)

/-- Collapse a resolved class stream to one representative per maximal
contiguous run, starting from an optional preceding class. -/
def collapseFrom : Option SubmitType → List SubmitType → List SubmitType
  | _, [] => []
  | Option.none, a :: rest => a :: collapseFrom (some a) rest
  | some c, a :: rest =>
    if a = c then collapseFrom (some c) rest
    else a :: collapseFrom (some a) rest

/-- The classes of a translation state's submit details, in order. -/
def classesOf (st : TransState) : List SubmitType :=
  st.transact.submit_details.map (·.submit_ty)

/-- One `_get_cmdbuf` request viewed purely on detail classes. -/
def pushClass (ds : List SubmitType) (ty : SubmitType) :
    Option (List SubmitType) :=
  match ty, ds.getLast? with
  | SubmitType.any, Option.none => Option.none
  | SubmitType.any, some _ => some ds
  | t, Option.none => some (ds ++ [t])
  | t, some lt => if t = lt then some ds else some (ds ++ [t])

def pushClasses (ds : List SubmitType) :
    List SubmitType → Option (List SubmitType)
  | [] => some ds
  | t :: rest =>
    match pushClass ds t with
    | Option.none => Option.none
    | some ds' => pushClasses ds' rest

/-- Semaphore chaining viewed recursively: the first detail waits on `w`,
each subsequent one on its predecessor's signal semaphore. -/
def chainFrom : Option Nat → List TransactionSubmitDetail → Prop
  | _, [] => True
  | w, d :: rest => d.wait_sema = w ∧ chainFrom (some d.signal_sema) rest

/-- The semaphore invariant maintained by translation: the wait/signal
chain holds, the signal semaphores are exactly the allocation sequence
`0, 1, ...`, and the allocation counter agrees with the detail count. -/
def semaInv (st : TransState) : Prop :=
  chainFrom Option.none st.transact.submit_details ∧
  st.transact.submit_details.map (·.signal_sema) =
    List.range st.transact.submit_details.length ∧
  st.next_sema = st.transact.submit_details.length

/-! ## Helper lemmas -/

theorem Except.map_eq_ok {ε α β : Type} {e : Except ε α} {f : α → β} {b : β}
    (h : e.map f = Except.ok b) : ∃ a, e = Except.ok a ∧ b = f a := by
  cases e with
  | error _ => simp [Except.map] at h
  | ok a => exact ⟨a, rfl, by simpa [Except.map] using h.symm⟩

theorem appendToLast_map_ty (ds : List TransactionSubmitDetail)
    (cs : List VkCmd) :
    (appendToLast ds cs).map (·.submit_ty) = ds.map (·.submit_ty) := by
  induction ds with
  | nil => rfl
  | cons d rest ih =>
    cases rest with
    | nil => rfl
    | cons e tail => simpa [appendToLast] using ih

theorem appendToLast_map_sig (ds : List TransactionSubmitDetail)
    (cs : List VkCmd) :
    (appendToLast ds cs).map (·.signal_sema) = ds.map (·.signal_sema) := by
  induction ds with
  | nil => rfl
  | cons d rest ih =>
    cases rest with
    | nil => rfl
    | cons e tail => simpa [appendToLast] using ih

theorem appendToLast_length (ds : List TransactionSubmitDetail)
    (cs : List VkCmd) : (appendToLast ds cs).length = ds.length := by
  induction ds with
  | nil => rfl
  | cons d rest ih =>
    cases rest with
    | nil => rfl
    | cons e tail => simpa [appendToLast] using ih

theorem chainFrom_appendToLast (ds : List TransactionSubmitDetail)
    (cs : List VkCmd) (w : Option Nat) (h : chainFrom w ds) :
    chainFrom w (appendToLast ds cs) := by
  induction ds generalizing w with
  | nil => trivial
  | cons d rest ih =>
    cases rest with
    | nil => exact ⟨h.1, trivial⟩
    | cons e tail =>
      exact ⟨h.1, ih (some d.signal_sema) h.2⟩

theorem classesOf_appendCmds (st : TransState) (cs : List VkCmd) :
    classesOf (st.appendCmds cs) = classesOf st := by
  simp [classesOf, TransState.appendCmds, appendToLast_map_ty]

theorem classesOf_push (st : TransState) (ty : SubmitType) :
    classesOf (_push_transact_submit_detail st ty) = classesOf st ++ [ty] := by
  simp [classesOf, _push_transact_submit_detail]

/-- `_get_cmdbuf` acts on detail classes exactly like `pushClass`. -/
theorem get_cmdbuf_pushClass {st : TransState} {ty : SubmitType}
    {st' : TransState} (h : _get_cmdbuf st ty = Except.ok st') :
    pushClass (classesOf st) ty = some (classesOf st') := by
  have hlast : (classesOf st).getLast? =
      (st.transact.submit_details.getLast?).map (·.submit_ty) :=
    List.getLast?_map _ _
  cases hl : st.transact.submit_details.getLast? with
  | none =>
    have hcl : (classesOf st).getLast? = Option.none := by
      rw [hlast, hl]; rfl
    cases ty with
    | any => simp [_get_cmdbuf, hl] at h
    | graphics =>
      simp only [_get_cmdbuf, hl, Except.ok.injEq] at h
      subst h
      simp [pushClass, hcl, classesOf_push]
    | compute =>
      simp only [_get_cmdbuf, hl, Except.ok.injEq] at h
      subst h
      simp [pushClass, hcl, classesOf_push]
  | some d =>
    have hcl : (classesOf st).getLast? = some d.submit_ty := by
      rw [hlast, hl]; rfl
    cases ty with
    | any =>
      simp only [_get_cmdbuf, hl, Except.ok.injEq] at h
      subst h
      simp [pushClass, hcl]
    | graphics =>
      simp only [_get_cmdbuf, hl] at h
      by_cases hty : SubmitType.graphics = d.submit_ty
      · rw [if_pos hty] at h
        simp only [Except.ok.injEq] at h
        subst h
        simp [pushClass, hcl, if_pos hty]
      · rw [if_neg hty] at h
        simp only [Except.ok.injEq] at h
        subst h
        simp [pushClass, hcl, if_neg hty, classesOf_push]
    | compute =>
      simp only [_get_cmdbuf, hl] at h
      by_cases hty : SubmitType.compute = d.submit_ty
      · rw [if_pos hty] at h
        simp only [Except.ok.injEq] at h
        subst h
        simp [pushClass, hcl, if_pos hty]
      · rw [if_neg hty] at h
        simp only [Except.ok.injEq] at h
        subst h
        simp [pushClass, hcl, if_neg hty, classesOf_push]

theorem mapAppend_pushClass {st : TransState} {ty : SubmitType}
    {cs : List VkCmd} {st' : TransState}
    (h : (_get_cmdbuf st ty).map (·.appendCmds cs) = Except.ok st') :
    pushClass (classesOf st) ty = some (classesOf st') := by
  obtain ⟨st1, h1, h2⟩ := Except.map_eq_ok h
  rw [h2, classesOf_appendCmds]
  exact get_cmdbuf_pushClass h1

theorem pushClass_any_some {ds : List SubmitType} {c : SubmitType}
    (h : ds.getLast? = some c) : pushClass ds SubmitType.any = some ds := by
  simp [pushClass, h]

theorem pushClass_conc_none {ds : List SubmitType} {ty : SubmitType}
    (h : ds.getLast? = Option.none) (ht : ty ≠ SubmitType.any) :
    pushClass ds ty = some (ds ++ [ty]) := by
  cases ty with
  | any => exact absurd rfl ht
  | graphics => simp [pushClass, h]
  | compute => simp [pushClass, h]

theorem pushClass_conc_some {ds : List SubmitType} {ty c : SubmitType}
    (h : ds.getLast? = some c) (ht : ty ≠ SubmitType.any) :
    pushClass ds ty =
      (if ty = c then some ds else some (ds ++ [ty])) := by
  cases ty with
  | any => exact absurd rfl ht
  | graphics => simp [pushClass, h]
  | compute => simp [pushClass, h]

theorem resolveClasses_cons_conc {ty : SubmitType} (rest : List SubmitType)
    (cur : Option SubmitType) (ht : ty ≠ SubmitType.any) :
    resolveClasses cur (ty :: rest) =
      (resolveClasses (some ty) rest).map (ty :: ·) := by
  cases ty with
  | any => exact absurd rfl ht
  | graphics => cases cur <;> rfl
  | compute => cases cur <;> rfl

theorem pushClasses_resolve (rs : List SubmitType) :
    ∀ ds : List SubmitType,
      pushClasses ds rs = (resolveClasses ds.getLast? rs).map
        (fun res => ds ++ collapseFrom ds.getLast? res) := by
  induction rs with
  | nil => intro ds; simp [pushClasses, resolveClasses, collapseFrom]
  | cons r rest ih =>
    intro ds
    by_cases hany : r = SubmitType.any
    · subst hany
      cases hl : ds.getLast? with
      | none => simp [pushClasses, pushClass, hl, resolveClasses]
      | some c =>
        rw [pushClasses, pushClass_any_some hl]
        show pushClasses ds rest = _
        rw [ih ds, hl]
        show _ = (resolveClasses (some c) (SubmitType.any :: rest)).map _
        have hres : resolveClasses (some c) (SubmitType.any :: rest) =
            (resolveClasses (some c) rest).map (c :: ·) := rfl
        rw [hres]
        cases resolveClasses (some c) rest with
        | none => rfl
        | some res => simp [collapseFrom]
    · cases hl : ds.getLast? with
      | none =>
        rw [pushClasses, pushClass_conc_none hl hany]
        show pushClasses (ds ++ [r]) rest = _
        rw [ih (ds ++ [r]), List.getLast?_concat,
          resolveClasses_cons_conc rest _ hany]
        cases resolveClasses (some r) rest with
        | none => rfl
        | some res => simp [collapseFrom]
      | some c =>
        rw [pushClasses, pushClass_conc_some hl hany,
          resolveClasses_cons_conc rest _ hany]
        by_cases hrc : r = c
        · subst hrc
          rw [if_pos rfl]
          show pushClasses ds rest = _
          rw [ih ds, hl]
          cases resolveClasses (some r) rest with
          | none => rfl
          | some res => simp [collapseFrom]
        · rw [if_neg hrc]
          show pushClasses (ds ++ [r]) rest = _
          rw [ih (ds ++ [r]), List.getLast?_concat]
          cases resolveClasses (some r) rest with
          | none => rfl
          | some res => simp [collapseFrom, hrc]

theorem chain'_cons_collapseFrom (l : List SubmitType) :
    ∀ c, List.Chain' (· ≠ ·) (c :: collapseFrom (some c) l) := by
  induction l with
  | nil => intro c; simp [collapseFrom]
  | cons a rest ih =>
    intro c
    by_cases hac : a = c
    · rw [collapseFrom, if_pos hac]; exact ih c
    · rw [collapseFrom, if_neg hac, List.chain'_cons]
      exact ⟨fun hcc => hac hcc.symm, ih a⟩

theorem chain'_collapseFrom (l : List SubmitType) :
    List.Chain' (· ≠ ·) (collapseFrom Option.none l) := by
  cases l with
  | nil => simp [collapseFrom]
  | cons a rest =>
    rw [collapseFrom]
    exact chain'_cons_collapseFrom rest a

theorem pushClasses_append (xs ys : List SubmitType) :
    ∀ ds, pushClasses ds (xs ++ ys) =
      (pushClasses ds xs).bind (fun ds' => pushClasses ds' ys) := by
  induction xs with
  | nil => intro ds; rfl
  | cons t rest ih =>
    intro ds
    simp only [List.cons_append, pushClasses]
    cases pushClass ds t with
    | none => rfl
    | some ds' => exact ih ds'

theorem inline_fold_pushClasses (subs : List (SubmitType × Nat)) :
    ∀ st st' : TransState,
      subs.foldlM (fun st' sub =>
        (_get_cmdbuf st' sub.1).map
          (·.appendCmds [VkCmd.executeCommands sub.2])) st = Except.ok st' →
      pushClasses (classesOf st) (subs.map Prod.fst) =
        some (classesOf st') := by
  induction subs with
  | nil =>
    intro st st' h
    cases h
    simp [pushClasses]
  | cons sub rest ih =>
    intro st st' h
    rw [List.foldlM_cons] at h
    cases hf : (_get_cmdbuf st sub.1).map
        (·.appendCmds [VkCmd.executeCommands sub.2]) with
    | error e => rw [hf] at h; exact Except.noConfusion h
    | ok st1 =>
      rw [hf] at h
      have h2 := ih st1 st' h
      simp only [List.map_cons, pushClasses, mapAppend_pushClass hf]
      exact h2

theorem record_pushClasses {st : TransState} {c : Command}
    {st' : TransState} (h : _record_cmd st c = Except.ok st') :
    pushClasses (classesOf st) (reqClasses c) = some (classesOf st') := by
  cases c with
  | setSubmitTy ty =>
    simp only [_record_cmd, _record_cmd_set_submit_ty] at h
    simp [reqClasses, pushClasses, get_cmdbuf_pushClass h]
  | inlineTransact subs =>
    simp only [_record_cmd, _record_cmd_inline_transact] at h
    by_cases hlv : st.transact.level = Level.primary
    · rw [if_pos hlv] at h
      simpa [reqClasses] using inline_fold_pushClasses subs st st' h
    · rw [if_neg hlv] at h; exact Except.noConfusion h
  | copyBuf2Img src dst =>
    simp only [_record_cmd, _record_cmd_copy_buf2img] at h
    simp [reqClasses, pushClasses, mapAppend_pushClass h]
  | copyImg2Buf src dst =>
    simp only [_record_cmd, _record_cmd_copy_img2buf] at h
    simp [reqClasses, pushClasses, mapAppend_pushClass h]
  | copyBuf src dst =>
    simp only [_record_cmd, _record_cmd_copy_buf] at h
    by_cases hsz : src.size = dst.size
    · rw [if_pos hsz] at h
      simp [reqClasses, pushClasses, mapAppend_pushClass h]
    · rw [if_neg hsz] at h; exact Except.noConfusion h
  | copyImg src dst =>
    simp only [_record_cmd, _record_cmd_copy_img] at h
    by_cases hsz : src.width = dst.width ∧ src.height = dst.height
    · rw [if_pos hsz] at h
      simp [reqClasses, pushClasses, mapAppend_pushClass h]
    · rw [if_neg hsz] at h; exact Except.noConfusion h
  | dispatch pipe hds x y z =>
    simp only [_record_cmd, _record_cmd_dispatch] at h
    simp [reqClasses, pushClasses, mapAppend_pushClass h]
  | draw pipe hds verts nvert ninst =>
    simp only [_record_cmd, _record_cmd_draw] at h
    simp [reqClasses, pushClasses, mapAppend_pushClass h]
  | drawIndexed pipe hds verts idxs nidx ninst =>
    simp only [_record_cmd, _record_cmd_draw_indexed] at h
    simp [reqClasses, pushClasses, mapAppend_pushClass h]
  | writeTimestamp qp =>
    simp only [_record_cmd, _record_cmd_write_timestamp] at h
    simp [reqClasses, pushClasses, mapAppend_pushClass h]
  | bufBarrier buf su du sa da =>
    simp only [_record_cmd, _record_cmd_buf_barrier] at h
    cases hg : _get_cmdbuf st SubmitType.any with
    | error e => rw [hg] at h; exact Except.noConfusion h
    | ok st1 =>
      rw [hg] at h
      cases hp1 : _make_buf_barrier_params su sa 0
          VK_PIPELINE_STAGE_BOTTOM_OF_PIPE_BIT with
      | error e => rw [hp1] at h; exact Except.noConfusion h
      | ok p1 =>
        rw [hp1] at h
        obtain ⟨a1, s1⟩ := p1
        cases hp2 : _make_buf_barrier_params du da 0
            VK_PIPELINE_STAGE_TOP_OF_PIPE_BIT with
        | error e => rw [hp2] at h; exact Except.noConfusion h
        | ok p2 =>
          rw [hp2] at h
          obtain ⟨a2, s2⟩ := p2
          simp only [Except.ok.injEq] at h
          subst h
          simp [reqClasses, pushClasses, classesOf_appendCmds,
            get_cmdbuf_pushClass hg]
  | imgBarrier img su du sa da =>
    simp only [_record_cmd, _record_cmd_img_barrier] at h
    cases hg : _get_cmdbuf st SubmitType.any with
    | error e => rw [hg] at h; exact Except.noConfusion h
    | ok st1 =>
      rw [hg] at h
      cases hp1 : _make_img_barrier_src_params su sa 0
          VK_PIPELINE_STAGE_BOTTOM_OF_PIPE_BIT VK_IMAGE_LAYOUT_UNDEFINED with
      | error e => rw [hp1] at h; exact Except.noConfusion h
      | ok p1 =>
        rw [hp1] at h
        obtain ⟨a1, s1, l1⟩ := p1
        cases hp2 : _make_img_barrier_dst_params du da 0
            VK_PIPELINE_STAGE_TOP_OF_PIPE_BIT VK_IMAGE_LAYOUT_UNDEFINED with
        | error e => rw [hp2] at h; exact Except.noConfusion h
        | ok p2 =>
          rw [hp2] at h
          obtain ⟨a2, s2, l2⟩ := p2
          simp only [Except.ok.injEq] at h
          subst h
          simp [reqClasses, pushClasses, classesOf_appendCmds,
            get_cmdbuf_pushClass hg]
  | beginPass pass di =>
    simp only [_record_cmd, _record_cmd_begin_pass] at h
    by_cases hlv : st.transact.level = Level.primary
    · rw [if_pos hlv] at h
      simp [reqClasses, pushClasses, mapAppend_pushClass h]
    · rw [if_neg hlv] at h; exact Except.noConfusion h
  | endPass =>
    simp only [_record_cmd, _record_cmd_end_pass] at h
    by_cases hlv : st.transact.level = Level.primary
    · rw [if_pos hlv] at h
      simp [reqClasses, pushClasses, mapAppend_pushClass h]
    · rw [if_neg hlv] at h; exact Except.noConfusion h
  | unknown t =>
    simp only [_record_cmd, Except.ok.injEq] at h
    subst h
    simp [reqClasses, pushClasses, classesOf, TransState.addWarn]

theorem foldlM_record_pushClasses (cmds : List Command) :
    ∀ st st' : TransState, cmds.foldlM _record_cmd st = Except.ok st' →
      pushClasses (classesOf st) (cmds.flatMap reqClasses) =
        some (classesOf st') := by
  induction cmds with
  | nil =>
    intro st st' h
    cases h
    simp [pushClasses]
  | cons c rest ih =>
    intro st st' h
    rw [List.foldlM_cons] at h
    cases hc : _record_cmd st c with
    | error e => rw [hc] at h; exact Except.noConfusion h
    | ok st1 =>
      rw [hc] at h
      have h2 := ih st1 st' h
      rw [List.flatMap_cons, pushClasses_append, record_pushClasses hc]
      simpa using h2

/-! ## Semaphore-chain invariant lemmas -/

/-- The signal semaphore of the last detail, or `w` if there is none. -/
def lastSignal (w : Option Nat) (ds : List TransactionSubmitDetail) :
    Option Nat :=
  match ds.getLast? with
  | Option.none => w
  | some d => some d.signal_sema

theorem lastSignal_cons (w : Option Nat) (e : TransactionSubmitDetail)
    (rest : List TransactionSubmitDetail) :
    lastSignal w (e :: rest) = lastSignal (some e.signal_sema) rest := by
  cases rest with
  | nil => rfl
  | cons f tail =>
    show (match (e :: f :: tail).getLast? with
      | Option.none => w
      | some d => some d.signal_sema) = _
    rw [List.getLast?_cons_cons]
    cases htl : (f :: tail).getLast? with
    | none => simp at htl
    | some d => simp [lastSignal, htl]

theorem chainFrom_append (ds : List TransactionSubmitDetail) :
    ∀ (w : Option Nat) (d : TransactionSubmitDetail), chainFrom w ds →
      d.wait_sema = lastSignal w ds → chainFrom w (ds ++ [d]) := by
  induction ds with
  | nil => intro w d _ hw; exact ⟨hw, trivial⟩
  | cons e rest ih =>
    intro w d h hw
    rw [lastSignal_cons] at hw
    exact ⟨h.1, ih (some e.signal_sema) d h.2 hw⟩

theorem lastSignal_none (ds : List TransactionSubmitDetail) :
    lastSignal Option.none ds = ds.getLast?.map (·.signal_sema) := by
  cases h : ds.getLast? <;> simp [lastSignal, h]

theorem semaInv_appendCmds {st : TransState} (cs : List VkCmd)
    (hinv : semaInv st) : semaInv (st.appendCmds cs) := by
  obtain ⟨h1, h2, h3⟩ := hinv
  refine ⟨?_, ?_, ?_⟩
  · exact chainFrom_appendToLast _ cs _ h1
  · show (appendToLast _ _).map _ = List.range (appendToLast _ _).length
    rw [appendToLast_map_sig, appendToLast_length]
    exact h2
  · show st.next_sema = (appendToLast _ _).length
    rw [appendToLast_length]
    exact h3

theorem semaInv_push {st : TransState} (ty : SubmitType)
    (hinv : semaInv st) : semaInv (_push_transact_submit_detail st ty) := by
  obtain ⟨h1, h2, h3⟩ := hinv
  refine ⟨?_, ?_, ?_⟩
  · apply chainFrom_append _ _ _ h1
    show (match st.transact.submit_details.getLast? with
      | Option.none => Option.none
      | some last => some last.signal_sema) = lastSignal Option.none _
    cases hgl : st.transact.submit_details.getLast? <;>
      simp [lastSignal, hgl]
  · simp [_push_transact_submit_detail, List.range_succ, h2, h3]
  · simp [_push_transact_submit_detail, h3]

theorem get_cmdbuf_semaInv {st : TransState} {ty : SubmitType}
    {st' : TransState} (h : _get_cmdbuf st ty = Except.ok st')
    (hinv : semaInv st) : semaInv st' := by
  cases hl : st.transact.submit_details.getLast? with
  | none =>
    cases ty with
    | any => simp [_get_cmdbuf, hl] at h
    | graphics =>
      simp only [_get_cmdbuf, hl, Except.ok.injEq] at h
      subst h; exact semaInv_push _ hinv
    | compute =>
      simp only [_get_cmdbuf, hl, Except.ok.injEq] at h
      subst h; exact semaInv_push _ hinv
  | some d =>
    cases ty with
    | any =>
      simp only [_get_cmdbuf, hl, Except.ok.injEq] at h
      subst h; exact hinv
    | graphics =>
      simp only [_get_cmdbuf, hl] at h
      by_cases hty : SubmitType.graphics = d.submit_ty
      · rw [if_pos hty] at h
        simp only [Except.ok.injEq] at h
        subst h; exact hinv
      · rw [if_neg hty] at h
        simp only [Except.ok.injEq] at h
        subst h; exact semaInv_push _ hinv
    | compute =>
      simp only [_get_cmdbuf, hl] at h
      by_cases hty : SubmitType.compute = d.submit_ty
      · rw [if_pos hty] at h
        simp only [Except.ok.injEq] at h
        subst h; exact hinv
      · rw [if_neg hty] at h
        simp only [Except.ok.injEq] at h
        subst h; exact semaInv_push _ hinv

theorem mapAppend_semaInv {st : TransState} {ty : SubmitType}
    {cs : List VkCmd} {st' : TransState}
    (h : (_get_cmdbuf st ty).map (·.appendCmds cs) = Except.ok st')
    (hinv : semaInv st) : semaInv st' := by
  obtain ⟨st1, h1, h2⟩ := Except.map_eq_ok h
  rw [h2]
  exact semaInv_appendCmds cs (get_cmdbuf_semaInv h1 hinv)

theorem inline_fold_semaInv (subs : List (SubmitType × Nat)) :
    ∀ st st' : TransState,
      subs.foldlM (fun st' sub =>
        (_get_cmdbuf st' sub.1).map
          (·.appendCmds [VkCmd.executeCommands sub.2])) st = Except.ok st' →
      semaInv st → semaInv st' := by
  induction subs with
  | nil => intro st st' h hinv; cases h; exact hinv
  | cons sub rest ih =>
    intro st st' h hinv
    rw [List.foldlM_cons] at h
    cases hf : (_get_cmdbuf st sub.1).map
        (·.appendCmds [VkCmd.executeCommands sub.2]) with
    | error e => rw [hf] at h; exact Except.noConfusion h
    | ok st1 =>
      rw [hf] at h
      exact ih st1 st' h (mapAppend_semaInv hf hinv)

theorem record_semaInv {st : TransState} {c : Command} {st' : TransState}
    (h : _record_cmd st c = Except.ok st') (hinv : semaInv st) :
    semaInv st' := by
  cases c with
  | setSubmitTy ty =>
    simp only [_record_cmd, _record_cmd_set_submit_ty] at h
    exact get_cmdbuf_semaInv h hinv
  | inlineTransact subs =>
    simp only [_record_cmd, _record_cmd_inline_transact] at h
    by_cases hlv : st.transact.level = Level.primary
    · rw [if_pos hlv] at h
      exact inline_fold_semaInv subs st st' h hinv
    · rw [if_neg hlv] at h; exact Except.noConfusion h
  | copyBuf2Img src dst =>
    simp only [_record_cmd, _record_cmd_copy_buf2img] at h
    exact mapAppend_semaInv h hinv
  | copyImg2Buf src dst =>
    simp only [_record_cmd, _record_cmd_copy_img2buf] at h
    exact mapAppend_semaInv h hinv
  | copyBuf src dst =>
    simp only [_record_cmd, _record_cmd_copy_buf] at h
    by_cases hsz : src.size = dst.size
    · rw [if_pos hsz] at h; exact mapAppend_semaInv h hinv
    · rw [if_neg hsz] at h; exact Except.noConfusion h
  | copyImg src dst =>
    simp only [_record_cmd, _record_cmd_copy_img] at h
    by_cases hsz : src.width = dst.width ∧ src.height = dst.height
    · rw [if_pos hsz] at h; exact mapAppend_semaInv h hinv
    · rw [if_neg hsz] at h; exact Except.noConfusion h
  | dispatch pipe hds x y z =>
    simp only [_record_cmd, _record_cmd_dispatch] at h
    exact mapAppend_semaInv h hinv
  | draw pipe hds verts nvert ninst =>
    simp only [_record_cmd, _record_cmd_draw] at h
    exact mapAppend_semaInv h hinv
  | drawIndexed pipe hds verts idxs nidx ninst =>
    simp only [_record_cmd, _record_cmd_draw_indexed] at h
    exact mapAppend_semaInv h hinv
  | writeTimestamp qp =>
    simp only [_record_cmd, _record_cmd_write_timestamp] at h
    exact mapAppend_semaInv h hinv
  | bufBarrier buf su du sa da =>
    simp only [_record_cmd, _record_cmd_buf_barrier] at h
    cases hg : _get_cmdbuf st SubmitType.any with
    | error e => rw [hg] at h; exact Except.noConfusion h
    | ok st1 =>
      rw [hg] at h
      cases hp1 : _make_buf_barrier_params su sa 0
          VK_PIPELINE_STAGE_BOTTOM_OF_PIPE_BIT with
      | error e => rw [hp1] at h; exact Except.noConfusion h
      | ok p1 =>
        rw [hp1] at h
        obtain ⟨a1, s1⟩ := p1
        cases hp2 : _make_buf_barrier_params du da 0
            VK_PIPELINE_STAGE_TOP_OF_PIPE_BIT with
        | error e => rw [hp2] at h; exact Except.noConfusion h
        | ok p2 =>
          rw [hp2] at h
          obtain ⟨a2, s2⟩ := p2
          simp only [Except.ok.injEq] at h
          subst h
          exact semaInv_appendCmds _ (get_cmdbuf_semaInv hg hinv)
  | imgBarrier img su du sa da =>
    simp only [_record_cmd, _record_cmd_img_barrier] at h
    cases hg : _get_cmdbuf st SubmitType.any with
    | error e => rw [hg] at h; exact Except.noConfusion h
    | ok st1 =>
      rw [hg] at h
      cases hp1 : _make_img_barrier_src_params su sa 0
          VK_PIPELINE_STAGE_BOTTOM_OF_PIPE_BIT VK_IMAGE_LAYOUT_UNDEFINED with
      | error e => rw [hp1] at h; exact Except.noConfusion h
      | ok p1 =>
        rw [hp1] at h
        obtain ⟨a1, s1, l1⟩ := p1
        cases hp2 : _make_img_barrier_dst_params du da 0
            VK_PIPELINE_STAGE_TOP_OF_PIPE_BIT VK_IMAGE_LAYOUT_UNDEFINED with
        | error e => rw [hp2] at h; exact Except.noConfusion h
        | ok p2 =>
          rw [hp2] at h
          obtain ⟨a2, s2, l2⟩ := p2
          simp only [Except.ok.injEq] at h
          subst h
          exact semaInv_appendCmds _ (get_cmdbuf_semaInv hg hinv)
  | beginPass pass di =>
    simp only [_record_cmd, _record_cmd_begin_pass] at h
    by_cases hlv : st.transact.level = Level.primary
    · rw [if_pos hlv] at h; exact mapAppend_semaInv h hinv
    · rw [if_neg hlv] at h; exact Except.noConfusion h
  | endPass =>
    simp only [_record_cmd, _record_cmd_end_pass] at h
    by_cases hlv : st.transact.level = Level.primary
    · rw [if_pos hlv] at h; exact mapAppend_semaInv h hinv
    · rw [if_neg hlv] at h; exact Except.noConfusion h
  | unknown t =>
    simp only [_record_cmd, Except.ok.injEq] at h
    subst h
    exact hinv

theorem foldlM_record_semaInv (cmds : List Command) :
    ∀ st st' : TransState, cmds.foldlM _record_cmd st = Except.ok st' →
      semaInv st → semaInv st' := by
  induction cmds with
  | nil => intro st st' h hinv; cases h; exact hinv
  | cons c rest ih =>
    intro st st' h hinv
    rw [List.foldlM_cons] at h
    cases hc : _record_cmd st c with
    | error e => rw [hc] at h; exact Except.noConfusion h
    | ok st1 =>
      rw [hc] at h
      exact ih st1 st' h (record_semaInv hc hinv)

/-- Bound used when starting the bucket search: capability words are
32-bit, so no family has more than 32 set bits. -/
theorem count_set_bits_le (n : Nat) : count_set_bits n ≤ 32 := by
  have h := List.countP_le_length (l := List.range 32)
    (p := fun i => Nat.testBit n i)
  simpa [count_set_bits] using h

theorem search_qfam_spec (qfams : List QueueFamilyTrait) (req : Nat) :
    ∀ k i, _search_qfam_buckets qfams req k = some i →
      ∃ t ∈ qfams, t.qfam_idx = i ∧ req &&& t.queue_flags = req ∧
        count_set_bits t.queue_flags < k ∧
        ∀ t' ∈ qfams, req &&& t'.queue_flags = req →
          count_set_bits t'.queue_flags < k →
          count_set_bits t'.queue_flags ≤ count_set_bits t.queue_flags := by
  intro k
  induction k with
  | zero => intro i h; exact Option.noConfusion h
  | succ k ih =>
    intro i h
    rw [_search_qfam_buckets] at h
    cases hf : qfams.find? (fun t =>
        decide (count_set_bits t.queue_flags = k) &&
        decide (req &&& t.queue_flags = req)) with
    | some t =>
      rw [hf] at h
      simp only [Option.some.injEq] at h
      have hmem := List.mem_of_find?_eq_some hf
      have hp := List.find?_some hf
      simp only [Bool.and_eq_true, decide_eq_true_eq] at hp
      refine ⟨t, hmem, h, hp.2, ?_, ?_⟩
      · rw [hp.1]; exact Nat.lt_succ_self k
      · intro t' _ _ hlt'
        rw [hp.1]
        exact Nat.lt_succ_iff.mp hlt'
    | none =>
      rw [hf] at h
      obtain ⟨t, hmem, hidx, hsat, hlt, hmax⟩ := ih i h
      have hnone := List.find?_eq_none.mp hf
      refine ⟨t, hmem, hidx, hsat, Nat.lt_succ_of_lt hlt, ?_⟩
      intro t' hm' hs' hlt'
      rcases Nat.lt_succ_iff_lt_or_eq.mp hlt' with h' | h'
      · exact hmax t' hm' hs' h'
      · exfalso
        have := hnone t' hm'
        simp [h', hs'] at this

/-! ## Concrete demonstration inputs shared by witnesses -/

/-- A translation state holding one open submit detail of class `ty`
with an empty command buffer (the state after `set-submit-type(ty)`). -/
def demoSt (ty : SubmitType) : TransState :=
  { transact :=
      { level := Level.primary
        submit_details :=
          [{ submit_ty := ty, cmd_pool := 0, cmdbuf := []
             wait_sema := Option.none, signal_sema := 0 }] }
    next_sema := 1, next_pool := 1, warns := [] }

def demoCmds : List Command :=
  [Command.setSubmitTy SubmitType.compute,
   Command.dispatch 5 false 8 8 8,
   Command.copyBuf ⟨0, 0, 4⟩ ⟨1, 0, 4⟩,
   Command.draw 6 false ⟨2, 0, 16⟩ 3 1]

/-- The state `translate Level.primary demoCmds` produces: a compute
detail followed by a graphics detail, semaphore-chained. -/
def demoC1St : TransState :=
  { transact :=
      { level := Level.primary
        submit_details :=
          [{ submit_ty := SubmitType.compute, cmd_pool := 0
             cmdbuf := [VkCmd.bindPipelineCompute 5, VkCmd.dispatch 8 8 8,
               VkCmd.copyBuffer 0 1 { srcOffset := 0, dstOffset := 0, size := 4 }]
             wait_sema := Option.none, signal_sema := 0 },
           { submit_ty := SubmitType.graphics, cmd_pool := 1
             cmdbuf := [VkCmd.bindPipelineGraphics 6,
               VkCmd.bindVertexBuffers 2 0, VkCmd.draw 3 1]
             wait_sema := some 0, signal_sema := 1 }] }
    next_sema := 2, next_pool := 2, warns := [] }

/-! ## Claim theorems -/

/-- **C3** (code_bug).  For the legal buffer-barrier input
`(staging, read) → (uniform, read)` the recorded barrier covers the
whole buffer with both queue families ignored, and its access masks are
the table entries (`transfer-read`, `uniform-read`); but the pipeline
stage masks passed to `vkCmdPipelineBarrier` are the caller's defaults
`bottom-of-pipe → top-of-pipe`, not the table's
`transfer → vertex|fragment|compute shader`, because
`_make_buf_barrier_params` takes `stage` by value (vk.cpp line 1733)
while its sibling image variants take it by reference: the table stages
it computes (second and third conjuncts) are dropped. -/
theorem buf_barrier_stage_dropped_bug :
    (_record_cmd (demoSt SubmitType.compute)
        (Command.bufBarrier 7 L_BUFFER_USAGE_STAGING_BIT
          L_BUFFER_USAGE_UNIFORM_BIT MemoryAccess.readOnly
          MemoryAccess.readOnly)).map
      (fun st => st.transact.submit_details.map (·.cmdbuf)) =
    Except.ok [[VkCmd.pipelineBarrierBuffer
      VK_PIPELINE_STAGE_BOTTOM_OF_PIPE_BIT VK_PIPELINE_STAGE_TOP_OF_PIPE_BIT
      { srcAccessMask := VK_ACCESS_TRANSFER_READ_BIT
        dstAccessMask := VK_ACCESS_UNIFORM_READ_BIT
        srcQueueFamilyIndex := VK_QUEUE_FAMILY_IGNORED
        dstQueueFamilyIndex := VK_QUEUE_FAMILY_IGNORED
        buffer := 7, offset := 0, size := VK_WHOLE_SIZE }]] ∧
    _make_buf_barrier_params L_BUFFER_USAGE_STAGING_BIT MemoryAccess.readOnly
        0 VK_PIPELINE_STAGE_BOTTOM_OF_PIPE_BIT =
      Except.ok (VK_ACCESS_TRANSFER_READ_BIT, VK_PIPELINE_STAGE_TRANSFER_BIT) ∧
    _make_buf_barrier_params L_BUFFER_USAGE_UNIFORM_BIT MemoryAccess.readOnly
        0 VK_PIPELINE_STAGE_TOP_OF_PIPE_BIT =
      Except.ok (VK_ACCESS_UNIFORM_READ_BIT,
        VK_PIPELINE_STAGE_VERTEX_SHADER_BIT |||
        VK_PIPELINE_STAGE_FRAGMENT_SHADER_BIT |||
        VK_PIPELINE_STAGE_COMPUTE_SHADER_BIT) ∧
    VK_PIPELINE_STAGE_BOTTOM_OF_PIPE_BIT ≠ VK_PIPELINE_STAGE_TRANSFER_BIT ∧
    VK_PIPELINE_STAGE_TOP_OF_PIPE_BIT ≠
      VK_PIPELINE_STAGE_VERTEX_SHADER_BIT |||
      VK_PIPELINE_STAGE_FRAGMENT_SHADER_BIT |||
      VK_PIPELINE_STAGE_COMPUTE_SHADER_BIT :=
  ⟨rfl, rfl, rfl, by decide, by decide⟩

/-- **C4** (code_bug).  A buffer requesting `uniform | vertex` gets only
the vertex branch's flags because the vertex branch assigns instead of
ORing (vk.cpp line 545): the `uniform` contribution
`VK_BUFFER_USAGE_UNIFORM_BUFFER_BIT` is lost (second conjunct), although
a pure `uniform` buffer does receive it (third conjunct).  The claim's
union semantics therefore fail exactly on multi-usage buffers. -/
theorem create_buf_usage_multi_usage_bug :
    create_buf_usage
        (L_BUFFER_USAGE_UNIFORM_BIT ||| L_BUFFER_USAGE_VERTEX_BIT) =
      (VK_BUFFER_USAGE_VERTEX_BUFFER_BIT |||
        VK_BUFFER_USAGE_TRANSFER_DST_BIT) ∧
    create_buf_usage
        (L_BUFFER_USAGE_UNIFORM_BIT ||| L_BUFFER_USAGE_VERTEX_BIT) &&&
      VK_BUFFER_USAGE_UNIFORM_BUFFER_BIT = 0 ∧
    create_buf_usage L_BUFFER_USAGE_UNIFORM_BIT &&&
      VK_BUFFER_USAGE_UNIFORM_BUFFER_BIT ≠ 0 := by
  decide

/-- **C6** (counterexample).  When no priority-list entry's bit is set
the code panics with `host access pattern cannot be satisfied`; the
claim quotes the message as `host access cannot be satisfied`, which is
a different string. -/
theorem create_buf_mem_ty_msg_counterexample :
    create_buf_choose_mem_ty [0] 0 =
      Except.error "host access pattern cannot be satisfied" ∧
    "host access pattern cannot be satisfied" ≠
      "host access cannot be satisfied" :=
  ⟨rfl, by decide⟩

/-- **C6** (amended).  The chosen memory-type index is the first
(highest-priority) entry of the host-access priority list whose bit is
set in the requirement mask; if no entry qualifies, creation fails with
`host access pattern cannot be satisfied`. -/
theorem create_buf_choose_mem_ty_first_match (prio : List Nat)
    (bits : Nat) :
    (∀ i, create_buf_choose_mem_ty prio bits = Except.ok i →
      Nat.testBit bits i = true ∧
      ∃ pre post, prio = pre ++ i :: post ∧
        ∀ j ∈ pre, Nat.testBit bits j = false) ∧
    ((∀ j ∈ prio, Nat.testBit bits j = false) →
      create_buf_choose_mem_ty prio bits =
        Except.error "host access pattern cannot be satisfied") := by
  induction prio with
  | nil =>
    refine ⟨fun i hi => Except.noConfusion hi, fun _ => rfl⟩
  | cons a rest ih =>
    constructor
    · intro i hi
      by_cases ha : Nat.testBit bits a
      · have hstep : create_buf_choose_mem_ty (a :: rest) bits =
            Except.ok a := by
          rw [create_buf_choose_mem_ty, List.find?_cons_of_pos _ ha]
        rw [hstep] at hi
        simp only [Except.ok.injEq] at hi
        subst hi
        exact ⟨ha, [], rest, rfl, by simp⟩
      · have hstep : create_buf_choose_mem_ty (a :: rest) bits =
            create_buf_choose_mem_ty rest bits := by
          simp [create_buf_choose_mem_ty,
            List.find?_cons_of_neg _ (by simpa using ha)]
        rw [hstep] at hi
        obtain ⟨hbit, pre, post, hdecomp, hpre⟩ := ih.1 i hi
        refine ⟨hbit, a :: pre, post, by rw [hdecomp, List.cons_append], ?_⟩
        intro j hj
        rcases List.mem_cons.mp hj with hj | hj
        · subst hj; simpa using ha
        · exact hpre j hj
    · intro hall
      have ha : Nat.testBit bits a = false := hall a (List.mem_cons_self a rest)
      have hfind : List.find? (fun i => Nat.testBit bits i) (a :: rest) =
          List.find? (fun i => Nat.testBit bits i) rest := by
        rw [List.find?_cons_of_neg]
        simp [ha]
      have hstep : create_buf_choose_mem_ty (a :: rest) bits =
          create_buf_choose_mem_ty rest bits := by
        rw [create_buf_choose_mem_ty, create_buf_choose_mem_ty, hfind]
      rw [hstep]
      exact ih.2 (fun j hj => hall j (List.mem_cons_of_mem a hj))

theorem create_buf_choose_mem_ty_first_match_witness :
    (∀ i, create_buf_choose_mem_ty [3, 1, 0] 0b0011 = Except.ok i →
      Nat.testBit 0b0011 i = true ∧
      ∃ pre post, [3, 1, 0] = pre ++ i :: post ∧
        ∀ j ∈ pre, Nat.testBit 0b0011 j = false) ∧
    ((∀ j ∈ [3, 1, 0], Nat.testBit 0b0011 j = false) →
      create_buf_choose_mem_ty [3, 1, 0] 0b0011 =
        Except.error "host access pattern cannot be satisfied") :=
  create_buf_choose_mem_ty_first_match [3, 1, 0] 0b0011

/-- **C9** (code_bug).  The signed 16-bit descriptor with one component
(`ncomp = 1`, `int_exp2 = 2`) is covered by the format table, yet the
code derives `R16G16_SINT`, a two-component format: the inner `switch`
of the 16-bit and 32-bit cases dispatches on `fmt.int_exp2` again
instead of `get_ncomp()` (vk.cpp lines 638, 645, 662, 669), so the
component count of the result is wrong whenever `ncomp ≠ int_exp2`. -/
theorem make_img_fmt_ncomp_bug :
    _make_img_fmt { ncomp := 1, int_exp2 := 2, is_signed := true,
                    is_single := false, is_half := false } =
      Except.ok VkFormat.R16G16_SINT ∧
    vkFormatNcomp VkFormat.R16G16_SINT = 2 ∧
    vkFormatCompBits VkFormat.R16G16_SINT = 16 ∧
    (2 : Nat) ≠ 1 :=
  ⟨rfl, rfl, rfl, by decide⟩

/-- **C10** (confirmed).  Recording a command whose tag is outside the
fourteen recognized variants logs the warning
`ignored unknown command: <tag>` and leaves the transaction — its
submit-detail list, all recorded command buffers and both handle
counters — unchanged, and translation succeeds. -/
theorem record_cmd_unknown_ignored (st : TransState) (t : Nat)
    (_h : 14 ≤ t) :
    _record_cmd st (Command.unknown t) = Except.ok
      { st with warns :=
          st.warns ++ ["ignored unknown command: " ++ toString t] } :=
  rfl

theorem record_cmd_unknown_ignored_witness :
    (14 : Nat) ≤ 14 ∧
    _record_cmd (initTransState Level.primary) (Command.unknown 14) =
      Except.ok { initTransState Level.primary with
        warns := ["ignored unknown command: 14"] } :=
  ⟨le_refl 14, record_cmd_unknown_ignored (initTransState Level.primary) 14
    (le_refl 14)⟩

/-- **C5** (counterexample).  With family 0 exposing only `COMPUTE`
(one capability bit) and family 1 exposing
`GRAPHICS | COMPUTE | TRANSFER` (three bits), resolving the compute
requirement selects family 1 — the family with the **most** capability
bits — even though family 0 also satisfies the requirement with fewer
bits, refuting the claim's "fewest set capability bits". -/
theorem select_qfam_fewest_bits_counterexample :
    create_ctxt_select_qfam
      [{ qfam_idx := 0, queue_flags := VK_QUEUE_COMPUTE_BIT },
       { qfam_idx := 1, queue_flags := VK_QUEUE_GRAPHICS_BIT |||
          VK_QUEUE_COMPUTE_BIT ||| VK_QUEUE_TRANSFER_BIT }]
      VK_QUEUE_COMPUTE_BIT = some 1 ∧
    VK_QUEUE_COMPUTE_BIT &&& VK_QUEUE_COMPUTE_BIT = VK_QUEUE_COMPUTE_BIT ∧
    count_set_bits VK_QUEUE_COMPUTE_BIT <
      count_set_bits (VK_QUEUE_GRAPHICS_BIT ||| VK_QUEUE_COMPUTE_BIT |||
        VK_QUEUE_TRANSFER_BIT) := by
  refine ⟨?_, by decide, by decide⟩
  decide

/-- **C5** (amended).  The queue family selected for a submit-class
requirement is one whose capability bits include all required bits and
whose popcount of capability bits is **maximal** among such families
(the `std::map` of popcount buckets is searched from the highest
popcount down, vk.cpp lines 386-398). -/
theorem select_qfam_max_popcount (qfams : List QueueFamilyTrait)
    (req i : Nat) (h : create_ctxt_select_qfam qfams req = some i) :
    ∃ t ∈ qfams, t.qfam_idx = i ∧ req &&& t.queue_flags = req ∧
      ∀ t' ∈ qfams, req &&& t'.queue_flags = req →
        count_set_bits t'.queue_flags ≤ count_set_bits t.queue_flags := by
  obtain ⟨t, hmem, hidx, hsat, _, hmax⟩ := search_qfam_spec qfams req 33 i h
  exact ⟨t, hmem, hidx, hsat, fun t' hm' hs' => hmax t' hm' hs'
    (Nat.lt_succ_of_le (count_set_bits_le t'.queue_flags))⟩

theorem select_qfam_max_popcount_witness :
    ∃ t ∈ [({ qfam_idx := 0, queue_flags := 2 } : QueueFamilyTrait),
           { qfam_idx := 1, queue_flags := 7 }],
      t.qfam_idx = 1 ∧ 2 &&& t.queue_flags = 2 ∧
      ∀ t' ∈ [({ qfam_idx := 0, queue_flags := 2 } : QueueFamilyTrait),
              { qfam_idx := 1, queue_flags := 7 }],
        2 &&& t'.queue_flags = 2 →
        count_set_bits t'.queue_flags ≤ count_set_bits t.queue_flags :=
  select_qfam_max_popcount
    [{ qfam_idx := 0, queue_flags := 2 }, { qfam_idx := 1, queue_flags := 7 }]
    2 1 (by decide)

/-- **C7** (confirmed).  With no submit detail open, requesting a
command buffer for an `any`-class command panics with a message whose
text begins with `cannot infer submit type`; with a detail open, the
same request succeeds, reuses the current detail (the state is
unchanged), and an `any`-class command such as a copy records into that
detail, inheriting its class (the detail-class list is unchanged). -/
theorem get_cmdbuf_any_inference (st : TransState) :
    (st.transact.submit_details = [] →
      _get_cmdbuf st SubmitType.any = Except.error
        "cannot infer submit type for submit-type-independent command" ∧
      "cannot infer submit type" ++
          " for submit-type-independent command" =
        "cannot infer submit type for submit-type-independent command") ∧
    (∀ d, st.transact.submit_details.getLast? = some d →
      _get_cmdbuf st SubmitType.any = Except.ok st ∧
      ∀ src dst : BufferView, src.size = dst.size →
        _record_cmd st (Command.copyBuf src dst) = Except.ok
          (st.appendCmds [VkCmd.copyBuffer src.buf dst.buf
            { srcOffset := src.offset, dstOffset := dst.offset,
              size := dst.size }]) ∧
        classesOf (st.appendCmds [VkCmd.copyBuffer src.buf dst.buf
          { srcOffset := src.offset, dstOffset := dst.offset,
            size := dst.size }]) = classesOf st) := by
  constructor
  · intro he
    refine ⟨?_, rfl⟩
    simp [_get_cmdbuf, he]
  · intro d hl
    have hok : _get_cmdbuf st SubmitType.any = Except.ok st := by
      simp [_get_cmdbuf, hl]
    refine ⟨hok, ?_⟩
    intro src dst hsz
    constructor
    · simp only [_record_cmd, _record_cmd_copy_buf, if_pos hsz, hok,
        Except.map]
    · exact classesOf_appendCmds st _

theorem get_cmdbuf_any_inference_witness :
    _get_cmdbuf (initTransState Level.primary) SubmitType.any =
      Except.error
        "cannot infer submit type for submit-type-independent command" ∧
    _get_cmdbuf (demoSt SubmitType.compute) SubmitType.any =
      Except.ok (demoSt SubmitType.compute) :=
  ⟨((get_cmdbuf_any_inference (initTransState Level.primary)).1 rfl).1,
   ((get_cmdbuf_any_inference (demoSt SubmitType.compute)).2 _ rfl).1⟩

/-- **C8** (counterexample).  Recording `copy-buffer(src[0..0],
dst[0..0])` into a state with an open compute detail logs **no**
warning (the warning trace stays empty) and **does** record a
`vkCmdCopyBuffer` of size 0 into the current command buffer —
`_record_cmd_copy_buf` has no zero-size special case. -/
theorem record_zero_copy_counterexample :
    (_record_cmd (demoSt SubmitType.compute)
        (Command.copyBuf ⟨0, 0, 0⟩ ⟨1, 0, 0⟩)).map
      (fun st => (st.warns, st.transact.submit_details.map (·.cmdbuf))) =
    Except.ok ([], [[VkCmd.copyBuffer 0 1
      { srcOffset := 0, dstOffset := 0, size := 0 }]]) :=
  rfl

/-- **C8** (amended).  Recording a copy-buffer command with equal view
sizes — zero included — is not special-cased: it appends a
`vkCmdCopyBuffer` with that size to the current command buffer and logs
no warning.  (The zero-size warn-and-skip behaviour exists only in the
host-copy helpers `copy_buf2host`/`copy_host2buf`, not in the command
translator.) -/
theorem record_cmd_copy_buf_zero_not_special (st : TransState)
    (d : TransactionSubmitDetail) (src dst : BufferView)
    (hlast : st.transact.submit_details.getLast? = some d)
    (hsz : src.size = dst.size) :
    _record_cmd st (Command.copyBuf src dst) = Except.ok
      (st.appendCmds [VkCmd.copyBuffer src.buf dst.buf
        { srcOffset := src.offset, dstOffset := dst.offset,
          size := dst.size }]) ∧
    (st.appendCmds [VkCmd.copyBuffer src.buf dst.buf
      { srcOffset := src.offset, dstOffset := dst.offset,
        size := dst.size }]).warns = st.warns := by
  have hok : _get_cmdbuf st SubmitType.any = Except.ok st := by
    simp [_get_cmdbuf, hlast]
  constructor
  · simp only [_record_cmd, _record_cmd_copy_buf, if_pos hsz, hok,
      Except.map]
  · rfl

theorem record_cmd_copy_buf_zero_not_special_witness :
    _record_cmd (demoSt SubmitType.compute)
      (Command.copyBuf ⟨0, 0, 0⟩ ⟨1, 0, 0⟩) = Except.ok
      ((demoSt SubmitType.compute).appendCmds [VkCmd.copyBuffer 0 1
        { srcOffset := 0, dstOffset := 0, size := 0 }]) ∧
    ((demoSt SubmitType.compute).appendCmds [VkCmd.copyBuffer 0 1
      { srcOffset := 0, dstOffset := 0, size := 0 }]).warns =
      (demoSt SubmitType.compute).warns :=
  record_cmd_copy_buf_zero_not_special (demoSt SubmitType.compute)
    { submit_ty := SubmitType.compute, cmd_pool := 0, cmdbuf := []
      wait_sema := Option.none, signal_sema := 0 }
    ⟨0, 0, 0⟩ ⟨1, 0, 0⟩ rfl rfl

/-- **C1** (confirmed).  For every command sequence the translator
accepts, at either level: the requested-class stream (one class per
class-requiring command, the payload class for `set-submit-type`, one
class per sub-detail for an inline transaction, `any` for the rest)
resolves by inheriting `any` from the current run, and the emitted
submit details are in bijection with the maximal contiguous runs of the
resolved stream — the detail-class list equals the run representatives
(`collapseFrom`), so there is exactly one detail per run and adjacent
details have distinct classes (`Chain'`); moreover a request whose
class equals the current detail's class (or is `any`) reuses the
current detail, opening no new one. -/
theorem translate_class_contiguity (level : Level) (cmds : List Command)
    (st : TransState) (h : translate level cmds = Except.ok st) :
    (∃ rs, resolveClasses Option.none (cmds.flatMap reqClasses) = some rs ∧
      classesOf st = collapseFrom Option.none rs) ∧
    List.Chain' (fun a b => a ≠ b) (classesOf st) ∧
    (∀ (st' : TransState) (d : TransactionSubmitDetail),
      st'.transact.submit_details.getLast? = some d →
      _get_cmdbuf st' d.submit_ty = Except.ok st' ∧
      _get_cmdbuf st' SubmitType.any = Except.ok st') := by
  have hpush := foldlM_record_pushClasses cmds (initTransState level) st h
  rw [pushClasses_resolve] at hpush
  have hpush2 : (resolveClasses Option.none (cmds.flatMap reqClasses)).map
      (fun res => collapseFrom Option.none res) = some (classesOf st) := by
    simpa [classesOf, initTransState] using hpush
  refine ⟨?_, ?_, ?_⟩
  · cases hres : resolveClasses Option.none (cmds.flatMap reqClasses) with
    | none => rw [hres] at hpush2; exact Option.noConfusion hpush2
    | some rs =>
      rw [hres] at hpush2
      simp only [Option.map_some', Option.some.injEq] at hpush2
      exact ⟨rs, rfl, hpush2.symm⟩
  · cases hres : resolveClasses Option.none (cmds.flatMap reqClasses) with
    | none => rw [hres] at hpush2; exact Option.noConfusion hpush2
    | some rs =>
      rw [hres] at hpush2
      simp only [Option.map_some', Option.some.injEq] at hpush2
      rw [← hpush2]
      exact chain'_collapseFrom rs
  · intro st' d hl
    constructor
    · cases hdty : d.submit_ty with
      | any => simp [_get_cmdbuf, hl]
      | graphics => simp [_get_cmdbuf, hl, hdty]
      | compute => simp [_get_cmdbuf, hl, hdty]
    · simp [_get_cmdbuf, hl]

theorem translate_class_contiguity_witness :
    (∃ rs, resolveClasses Option.none (demoCmds.flatMap reqClasses) =
        some rs ∧
      classesOf demoC1St = collapseFrom Option.none rs) ∧
    List.Chain' (fun a b => a ≠ b) (classesOf demoC1St) ∧
    (∀ (st' : TransState) (d : TransactionSubmitDetail),
      st'.transact.submit_details.getLast? = some d →
      _get_cmdbuf st' d.submit_ty = Except.ok st' ∧
      _get_cmdbuf st' SubmitType.any = Except.ok st') :=
  translate_class_contiguity Level.primary demoCmds demoC1St rfl

/-- **C2** (confirmed).  In every translation, primary or secondary:
the first submit detail has no wait semaphore and for `i > 0` detail
`i`'s wait semaphore is detail `i-1`'s signal semaphore (`chainFrom`);
and every detail, the last included, carries a freshly created signal
semaphore — the signal semaphores are exactly the allocation sequence
`0, 1, ...`, hence pairwise distinct. -/
theorem translate_sema_chain (level : Level) (cmds : List Command)
    (st : TransState) (h : translate level cmds = Except.ok st) :
    chainFrom Option.none st.transact.submit_details ∧
    st.transact.submit_details.map (·.signal_sema) =
      List.range st.transact.submit_details.length ∧
    (st.transact.submit_details.map (·.signal_sema)).Nodup := by
  have hinv := foldlM_record_semaInv cmds (initTransState level) st h
    ⟨trivial, rfl, rfl⟩
  refine ⟨hinv.1, hinv.2.1, ?_⟩
  rw [hinv.2.1]
  exact List.nodup_range _

theorem translate_sema_chain_witness :
    chainFrom Option.none demoC1St.transact.submit_details ∧
    demoC1St.transact.submit_details.map (·.signal_sema) =
      List.range demoC1St.transact.submit_details.length ∧
    (demoC1St.transact.submit_details.map (·.signal_sema)).Nodup :=
  translate_sema_chain Level.primary demoCmds demoC1St rfl

end GraphiT
